import Mathlib

/-!
Verification of the AgoraFlux public-data pipeline (backend/app/data/):
a shallow embedding in Lean 4 of the data processor, fusion engine,
source registry, pipeline orchestrator and documentation generator,
together with theorems settling the specified properties.

Modelling conventions:
* Python values (JSON-like payloads, records) are modelled by `Val`;
  dicts are insertion-ordered association lists, as in CPython.
* Python `float` is idealised as `ℚ` (exact rational arithmetic);
  `round(x, n)` and `f"{x:.nf}"` use round-half-to-even on the exact value.
* Functions performing I/O (network, database, clock) take the external
  outcome (response, parsed payload, timestamp) as an explicit parameter.
* Fallible Python code (code that can raise) returns `Except String _`
  or `Option _`.
-/

namespace AgoraFlux

/-- JSON-like Python value: None, bool, int/float (idealised as ℚ),
str, list, dict (insertion-ordered association list). -/
inductive Val where
  | vnull
  | vbool (b : Bool)
  | vnum (q : ℚ)
  | vstr (s : String)
  | vlist (xs : List Val)
  | vdict (entries : List (String × Val))
deriving Repr, Inhabited

/-- A Python dict record: insertion-ordered association list. -/
abbrev Rec := List (String × Val)

/-- First binding of key `k` in record `r` (Python `r[k]` / `r.get(k)`). -/
def lookupR (r : Rec) (k : String) : Option Val :=
  match r with
  | [] => none
  | (k', v) :: rest => if k' = k then some v else lookupR rest k

/-- Python `k in r`. -/
def hasKeyR (r : Rec) (k : String) : Bool :=
  (lookupR r k).isSome

/-- Python `r.get(k, d)`. -/
def getD (r : Rec) (k : String) (d : Val) : Val :=
  (lookupR r k).getD d

/-- Python dict assignment `r[k] = v`: update in place if the key exists,
else append at the end (CPython preserves insertion order). -/
def setK (r : Rec) (k : String) (v : Val) : Rec :=
  match r with
  | [] => [(k, v)]
  | (k', v') :: rest => if k' = k then (k, v) :: rest else (k', v') :: setK rest k v

/-- Generic key lookup in an association list. -/
def lookupA {β : Type} (xs : List (String × β)) (k : String) : Option β :=
  match xs with
  | [] => none
  | (k', v) :: rest => if k' = k then some v else lookupA rest k

/-- Python truthiness (`bool(v)`): None, False, 0, empty string/list/dict
are falsy. -/
def Val.truthy : Val → Bool
  | .vnull => false
  | .vbool b => b
  | .vnum q => decide (q ≠ 0)
  | .vstr s => !s.data.isEmpty
  | .vlist xs => !xs.isEmpty
  | .vdict es => !es.isEmpty

/-- Characters stripped by Python `str.strip()` (ASCII whitespace; the
unicode-only whitespace cases are not exercised by this code base). -/
def isPySpace (c : Char) : Bool :=
  c = ' ' || c = '\t' || c = '\n' || c = '\r' || c = '\x0b' || c = '\x0c'

/-- Python `str.strip()`. -/
def pyStrip (s : String) : String :=
  String.mk (((s.data.dropWhile isPySpace).reverse.dropWhile isPySpace).reverse)

/-- Decimal digits to a natural number. -/
def digitsToNat (ds : List Char) : Nat :=
  ds.foldl (fun a c => a * 10 + (c.toNat - 48)) 0

/-- Split leading decimal digits from a character list. -/
def spanDigits (cs : List Char) : List Char × List Char :=
  (cs.takeWhile Char.isDigit, cs.dropWhile Char.isDigit)

/-- Optional exponent suffix of a Python float literal (`e`/`E`, sign,
digits); returns `none` when malformed. -/
def parseExpSuffix (base : ℚ) (cs : List Char) : Option ℚ :=
  match cs with
  | [] => some base
  | e :: rest =>
    if e = 'e' ∨ e = 'E' then
      let signed : Int × List Char :=
        match rest with
        | '+' :: r => (1, r)
        | '-' :: r => (-1, r)
        | r => (1, r)
      let (ds, rest3) := spanDigits signed.2
      if ds.isEmpty ∨ !rest3.isEmpty then none
      else some (base * (10 : ℚ) ^ (signed.1 * (digitsToNat ds : Int)))
    else none

/-- Unsigned part of a Python float literal: digits, optional fractional
part, optional exponent (the `inf`/`nan` spellings and digit-group
underscores are not exercised by this code base). -/
def parseUnsignedFloat (cs : List Char) : Option ℚ :=
  let (ip, rest) := spanDigits cs
  match rest with
  | [] => if ip.isEmpty then none else some (digitsToNat ip : ℚ)
  | '.' :: rest2 =>
    let (fp, rest3) := spanDigits rest2
    if ip.isEmpty && fp.isEmpty then none
    else parseExpSuffix ((digitsToNat ip : ℚ) + (digitsToNat fp : ℚ) / (10 : ℚ) ^ fp.length) rest3
  | _ =>
    if ip.isEmpty then none else parseExpSuffix (digitsToNat ip : ℚ) rest

/-- Python `float(s)` on an already-stripped string: `none` models a
`ValueError`. -/
def pyFloat (s : String) : Option ℚ :=
  match s.data with
  | '+' :: rest => parseUnsignedFloat rest
  | '-' :: rest => (parseUnsignedFloat rest).map Neg.neg
  | cs => parseUnsignedFloat cs

/-- Truncation toward zero, as Python `int(float)`. -/
def truncQ (q : ℚ) : Int :=
  if 0 ≤ q then ⌊q⌋ else -⌊-q⌋

/-- Python `int(v)`: truncates numbers, parses pure-integer strings,
raises (`none`) otherwise. -/
def pyInt (v : Val) : Option Int :=
  match v with
  | .vnum q => some (truncQ q)
  | .vbool b => some (if b then 1 else 0)
  | .vstr s =>
    let t := (pyStrip s).data
    match t with
    | '+' :: ds => if !ds.isEmpty && ds.all Char.isDigit then some (digitsToNat ds : Int) else none
    | '-' :: ds => if !ds.isEmpty && ds.all Char.isDigit then some (-(digitsToNat ds : Int)) else none
    | ds => if !ds.isEmpty && ds.all Char.isDigit then some (digitsToNat ds : Int) else none
  | _ => none

/-- Round to the nearest integer, ties to even (Python `round`/format
rounding, idealised over exact rationals). -/
def roundHalfEven (q : ℚ) : Int :=
  let f := ⌊q⌋
  let r := q - (f : ℚ)
  if r < 1/2 then f
  else if 1/2 < r then f + 1
  else if f % 2 = 0 then f else f + 1

/-- Python `round(q, nd)`. -/
def roundTo (nd : Nat) (q : ℚ) : ℚ :=
  (roundHalfEven (q * (10 : ℚ) ^ nd) : ℚ) / (10 : ℚ) ^ nd

/-- Left-pad a numeral string with zeros to `k` digits. -/
def padZeros (k : Nat) (s : String) : String :=
  if k ≤ s.data.length then s
  else String.mk (List.replicate (k - s.data.length) '0') ++ s

/-- Fixed-point rendering of the integer `n` scaled down by `10^k`. -/
def decStr (n : Int) (k : Nat) : String :=
  let m := n.natAbs
  let sign := if n < 0 then "-" else ""
  if k = 0 then sign ++ toString m
  else sign ++ toString (m / 10 ^ k) ++ "." ++ padZeros k (toString (m % 10 ^ k))

/-- Python `f"{q:.kf}"` fixed-point formatting (round-half-even). -/
def fmtFixed (k : Nat) (q : ℚ) : String :=
  decStr (roundHalfEven (q * (10 : ℚ) ^ k)) k

/-- Number of times `p` divides `d` (with explicit fuel). -/
def factorCount (p : Nat) : Nat → Nat → Nat
  | 0, _ => 0
  | fuel + 1, d => if d % p = 0 ∧ 0 < d ∧ 1 < p then 1 + factorCount p fuel (d / p) else 0

/-- Python `str` of an int or float, idealised: integers render exactly;
floats whose value is a finite decimal render as that decimal (CPython's
shortest-roundtrip repr agrees on the short decimals this code handles). -/
def pyStrNum (q : ℚ) : String :=
  if q.den = 1 then decStr q.num 0
  else
    let k := max (factorCount 2 q.den q.den) (factorCount 5 q.den q.den)
    if q.num * (10 : Int) ^ k % (q.den : Int) = 0 then
      decStr (q.num * (10 : Int) ^ k / (q.den : Int)) k
    else decStr q.num 0 ++ "/" ++ toString q.den

/-- Python `str(v)` (container rendering abbreviated; no claim inspects
the string form of a list or dict). -/
def pyStr : Val → String
  | .vnull => "None"
  | .vbool b => if b then "True" else "False"
  | .vnum q => pyStrNum q
  | .vstr s => s
  | .vlist _ => "<list>"
  | .vdict _ => "<dict>"

/-- Fuel-driven worker for `uniquesFirst` (structural recursion keeps
it kernel-reducible; `fuel = l.length` always suffices). -/
def uniquesFirstGo {α : Type} [DecidableEq α] : Nat → List α → List α
  | 0, _ => []
  | _ + 1, [] => []
  | fuel + 1, a :: l => a :: uniquesFirstGo fuel (l.filter (fun b => b ≠ a))

/-- Distinct values of a list in order of first appearance
(`pandas.Series.unique`, CPython `list(dict.fromkeys(_))`-style set
order). -/
def uniquesFirst {α : Type} [DecidableEq α] (l : List α) : List α :=
  uniquesFirstGo l.length l

/-! ## Data processor (`backend/app/data/processor.py`) -/

/-- Quality level bands (`DataQuality` enum). -/
inductive DataQuality where
  | excellent
  | good
  | acceptable
  | poor
deriving Repr, DecidableEq

/-- `QualityMetrics` dataclass. -/
structure QualityMetrics where
  completeness : ℚ
  consistency : ℚ
  validity : ℚ
  overall_score : ℚ
  quality_level : DataQuality
  issues : List String
deriving Repr, DecidableEq

/-- Characters removed by `re.sub(r'[€$,\s]', '', _)` in `_parse_numeric`. -/
def stripMoneyChars (s : String) : String :=
  String.mk (s.data.filter (fun c => !(c = '€' || c = '$' || c = ',' || isPySpace c)))

/-- `DataProcessor._parse_numeric`: numbers (including bools, which are
ints in Python) pass through; strings are stripped of `[€$,\s]`, then
remaining commas become periods, then `float()` is attempted; every
failure yields 0.0. -/
def parse_numeric (v : Val) : ℚ :=
  match v with
  | .vnum q => q
  | .vbool b => if b then 1 else 0
  | .vstr s =>
    let cleaned := stripMoneyChars (pyStrip s)
    let cleaned := String.mk (cleaned.data.map (fun c => if c = ',' then '.' else c))
    match pyFloat cleaned with
    | some q => q
    | none => 0
  | _ => 0

/-- `raw_data.get('data', [])` restricted to list payloads (the pipeline
only ever passes lists; a non-list would make CPython iterate its
elements or raise, a case no claim exercises). -/
def rawDataList (raw : Val) : List Val :=
  match raw with
  | .vdict es =>
    match lookupA es "data" with
    | some (.vlist xs) => xs
    | _ => []
  | _ => []

/-- The values dropped by cleaning: `v is None or v == ''`. -/
def isDroppedVal : Val → Bool
  | .vnull => true
  | .vstr s => s.data.isEmpty
  | _ => false

/-- `DataProcessor._clean_raw_data`: keep dict rows, drop null/empty
values, strip string values, drop rows that become empty. -/
def clean_raw_data (raw : Val) : List Rec :=
  (rawDataList raw).filterMap (fun row =>
    match row with
    | .vdict es =>
      let cleanRow := es.filter (fun kv => !isDroppedVal kv.2)
      let cleanRow := cleanRow.map (fun kv =>
        match kv.2 with
        | .vstr s => (kv.1, Val.vstr (pyStrip s))
        | v => (kv.1, v))
      if cleanRow.isEmpty then none else some cleanRow
    | _ => none)

/-- `DataProcessor._validate_budget_data`. `year` stands for
`datetime.now().year` (default of the `annee` field); a row whose
`annee` does not convert with `int()` raises and is dropped by the
`except` clause. -/
def validate_budget_data (year : Int) (data : List Rec) : List Rec :=
  data.filterMap (fun row =>
    if !(hasKeyR row "secteur" && hasKeyR row "montant") then none
    else
      let montant := parse_numeric (getD row "montant" (.vnum 0))
      if montant ≤ 0 then none
      else
        let secteur := pyStrip (pyStr (getD row "secteur" (.vstr "")))
        if secteur.data.length < 2 then none
        else
          match pyInt (getD row "annee" (.vnum (year : ℚ))) with
          | none => none
          | some annee =>
            some [("secteur", Val.vstr secteur),
                  ("montant", Val.vnum montant),
                  ("pourcentage", Val.vnum (parse_numeric (getD row "pourcentage" (.vnum 0)))),
                  ("annee", Val.vnum (annee : ℚ)),
                  ("description", Val.vstr (pyStrip (pyStr (getD row "description" (.vstr "")))))])

/-- `re.match(r'^75\d{3}$', s)`. -/
def isArrondFormat (s : String) : Bool :=
  match s.data with
  | '7' :: '5' :: ds => ds.length = 3 && ds.all Char.isDigit
  | _ => false

/-- `DataProcessor._validate_participation_data`. `nowMonth` stands for
`datetime.now().strftime('%Y-%m')` (default of the `mois` field). -/
def validate_participation_data (nowMonth : String) (data : List Rec) : List Rec :=
  data.filterMap (fun row =>
    if !(hasKeyR row "arrondissement" && hasKeyR row "participants") then none
    else
      let arrond := pyStrip (pyStr (getD row "arrondissement" (.vstr "")))
      if !isArrondFormat arrond then none
      else
        let participants := parse_numeric (getD row "participants" (.vnum 0))
        if participants < 0 then none
        else
          some [("arrondissement", Val.vstr arrond),
                ("nom", Val.vstr (pyStrip (pyStr (getD row "nom" (.vstr (arrond ++ " arrondissement")))))),
                ("participants", Val.vnum (truncQ participants : ℚ)),
                ("projets_actifs", Val.vnum (truncQ (parse_numeric (getD row "projets_actifs" (.vnum 0))) : ℚ)),
                ("commentaires", Val.vnum (truncQ (parse_numeric (getD row "commentaires" (.vnum 0))) : ℚ)),
                ("satisfaction", Val.vnum (roundTo 1 (parse_numeric (getD row "satisfaction" (.vnum 0))))),
                ("mois", Val.vstr (pyStrip (pyStr (getD row "mois" (.vstr nowMonth)))))])

/-- `DataProcessor._validate_transport_data` (`data` is always a list
here, so the `isinstance` guard is the identity). -/
def validate_transport_data (data : List Rec) : List Rec :=
  data

/-- `row.get(k, 0)` read in a numeric position. The validators emit
only numeric values for the fields read this way; on a hand-crafted
non-numeric value CPython would raise where this model reads 0. -/
def getNumD (row : Rec) (k : String) : ℚ :=
  match lookupR row k with
  | some (.vnum q) => q
  | some (.vbool b) => if b then 1 else 0
  | _ => 0

/-- `DataProcessor._calculate_consistency` (the computed `total_montant`
is dead code in the source and is omitted). -/
def calculate_consistency (data : List Rec) (data_type : String) : ℚ :=
  if data.isEmpty then 0
  else if data_type = "budget" then
    let total_pourcentage := (data.map (fun row => getNumD row "pourcentage")).sum
    let consistency := if 0 < total_pourcentage then 100 - |100 - total_pourcentage| else 0
    max 0 (min 100 consistency)
  else if data_type = "participation" then
    let consistent_rows := (data.filter (fun row => getNumD row "projets_actifs" ≤ getNumD row "participants")).length
    (consistent_rows : ℚ) / (data.length : ℚ) * 100
  else 90

/-- Budget-row range check of `_calculate_validity`. -/
def budget_row_valid (row : Rec) : Bool :=
  decide (1000 ≤ getNumD row "montant") && decide (getNumD row "montant" ≤ 10000000000) &&
  decide (0 ≤ getNumD row "pourcentage") && decide (getNumD row "pourcentage" ≤ 100)

/-- Participation-row range check of `_calculate_validity`. -/
def participation_row_valid (row : Rec) : Bool :=
  decide (0 ≤ getNumD row "participants") && decide (getNumD row "participants" ≤ 10000) &&
  decide (0 ≤ getNumD row "satisfaction") && decide (getNumD row "satisfaction" ≤ 5)

/-- `DataProcessor._calculate_validity`. -/
def calculate_validity (data : List Rec) (data_type : String) : ℚ :=
  if data.isEmpty then 0
  else
    let valid_rows :=
      if data_type = "budget" then (data.filter budget_row_valid).length
      else if data_type = "participation" then (data.filter participation_row_valid).length
      else data.length
    (valid_rows : ℚ) / (data.length : ℚ) * 100

/-- `sum(len(row) for row in data)`. -/
def total_fields (data : List Rec) : Nat :=
  (data.map List.length).sum

/-- `sum(1 for row in data for value in row.values() if not value)`. -/
def empty_fields (data : List Rec) : Nat :=
  (data.map (fun row => (row.filter (fun kv => !kv.2.truthy)).length)).sum

/-- Completeness sub-score of `_calculate_quality_metrics`. -/
def completenessOf (data : List Rec) : ℚ :=
  if 0 < total_fields data then
    ((total_fields data : ℚ) - (empty_fields data : ℚ)) / (total_fields data : ℚ) * 100
  else 0

/-- The weighted overall score before rounding:
`completeness * 0.3 + consistency * 0.4 + validity * 0.3`. -/
def overallScoreOf (data : List Rec) (data_type : String) : ℚ :=
  completenessOf data * (3/10) + calculate_consistency data data_type * (4/10) +
    calculate_validity data data_type * (3/10)

/-- The threshold band of `_calculate_quality_metrics`
(excellent ≥ 95, good ≥ 80, acceptable ≥ 60, else poor). -/
def qualityLevelOf (score : ℚ) : DataQuality :=
  if 95 ≤ score then .excellent
  else if 80 ≤ score then .good
  else if 60 ≤ score then .acceptable
  else .poor

/-- `DataProcessor._calculate_quality_metrics`. Note the source computes
`quality_level` from the unrounded score but stores `round(score, 1)`. -/
def calculate_quality_metrics (data : List Rec) (data_type : String) : QualityMetrics :=
  if data.isEmpty then
    { completeness := 0, consistency := 0, validity := 0, overall_score := 0,
      quality_level := .poor, issues := ["Aucune donnée valide"] }
  else
    let completeness := completenessOf data
    let consistency := calculate_consistency data data_type
    let validity := calculate_validity data data_type
    let overall_score := overallScoreOf data data_type
    let quality_level := qualityLevelOf overall_score
    let issues :=
      (if completeness < 90 then ["Complétude faible: " ++ fmtFixed 1 completeness ++ "%"] else []) ++
      (if consistency < 85 then ["Cohérence faible: " ++ fmtFixed 1 consistency ++ "%"] else []) ++
      (if validity < 85 then ["Validité faible: " ++ fmtFixed 1 validity ++ "%"] else [])
    { completeness := roundTo 1 completeness, consistency := roundTo 1 consistency,
      validity := roundTo 1 validity, overall_score := roundTo 1 overall_score,
      quality_level := quality_level, issues := issues }

/-- `DataProcessor._format_currency`. -/
def format_currency (amount : ℚ) : String :=
  if 1000000000 ≤ amount then fmtFixed 1 (amount / 1000000000) ++ " Md€"
  else if 1000000 ≤ amount then fmtFixed 1 (amount / 1000000) ++ " M€"
  else if 1000 ≤ amount then fmtFixed 1 (amount / 1000) ++ " k€"
  else fmtFixed 0 amount ++ " €"

/-- `DataProcessor._calculate_participation_rate` (constant population
baseline 110000). -/
def calculate_participation_rate (row : Rec) : ℚ :=
  roundTo 2 (getNumD row "participants" / 110000 * 100)

/-- `DataProcessor._transform_to_standard_format` (`now` stands for
`datetime.now().isoformat()`). -/
def transform_to_standard_format (data : List Rec) (data_type : String) (now : String) : List Rec :=
  if data.isEmpty then []
  else data.map (fun row =>
    let standard_row :=
      setK (setK (setK row "data_type" (.vstr data_type)) "processed_at" (.vstr now))
        "quality_checked" (.vbool true)
    if data_type = "budget" then
      setK (setK standard_row "montant_formatted"
        (.vstr (format_currency (getNumD row "montant")))) "category" (.vstr "budget")
    else if data_type = "participation" then
      setK (setK standard_row "participation_rate"
        (.vnum (calculate_participation_rate row))) "category" (.vstr "civic_engagement")
    else standard_row)

/-- Common transformation labels of `_get_applied_transformations`. -/
def common_transformations : List String :=
  ["Nettoyage des valeurs nulles", "Normalisation des chaînes de caractères",
   "Validation des types de données", "Calcul métriques de qualité"]

/-- `DataProcessor._get_applied_transformations`. -/
def get_applied_transformations (data_type : String) : List String :=
  if data_type = "budget" then
    common_transformations ++
      ["Validation montants budgétaires", "Formatage devises", "Vérification cohérence pourcentages"]
  else if data_type = "participation" then
    common_transformations ++
      ["Validation codes arrondissements", "Calcul taux de participation", "Validation plages de satisfaction"]
  else common_transformations

/-- Result dict of `DataProcessor.process_data`. -/
structure ProcessResult where
  data_type : String
  processed_at : String
  raw_rows : Nat
  processed_rows : Nat
  quality_metrics : QualityMetrics
  data : List Rec
  metadata_source : Val
  transformations_applied : List String
deriving Repr

/-- `DataProcessor.process_data`: clean, validate by type (the
`self.validators` dict has keys budget/participation/transport),
score, transform. -/
def process_data (raw : Val) (data_type : String) (now nowMonth : String) (year : Int) : ProcessResult :=
  let cleaned_data := clean_raw_data raw
  let validated_data :=
    if data_type = "budget" then validate_budget_data year cleaned_data
    else if data_type = "participation" then validate_participation_data nowMonth cleaned_data
    else if data_type = "transport" then validate_transport_data cleaned_data
    else cleaned_data
  let quality_metrics := calculate_quality_metrics validated_data data_type
  let transformed_data := transform_to_standard_format validated_data data_type now
  { data_type := data_type
    processed_at := now
    raw_rows := (rawDataList raw).length
    processed_rows := transformed_data.length
    quality_metrics := quality_metrics
    data := transformed_data
    metadata_source :=
      match raw with
      | .vdict es => (lookupA es "source").getD (.vstr "unknown")
      | _ => .vstr "unknown"
    transformations_applied := get_applied_transformations data_type }

/-! ## Fusion engine (`backend/app/data/fusion.py`)

Pandas idealisation: a prepared `DataFrame` is a list of records.  The
payloads this pipeline produces have a uniform schema per source, so a
missing cell (pandas `NaN`) is modelled as an absent key. -/

/-- `FusionStrategy` enum. -/
inductive FusionStrategy where
  | geographic
  | temporal
  | thematic
  | hybrid
deriving Repr, DecidableEq

/-- `str` value of a `FusionStrategy`. -/
def strategyName : FusionStrategy → String
  | .geographic => "geographic"
  | .temporal => "temporal"
  | .thematic => "thematic"
  | .hybrid => "hybrid"

/-- `FusionConfig` dataclass (the unused `aggregation_rules` /
`conflict_resolution` defaults are omitted). -/
structure FusionConfig where
  strategy : FusionStrategy
  primary_source : String
  secondary_sources : List String
  join_keys : List (String × String)
deriving Repr

/-- `FusionResult` dataclass. -/
structure FusionResult where
  fused_data : List Rec
  fusion_metadata : Rec
  quality_metrics : List (String × ℚ)
  source_mapping : List (String × List String)
  conflicts_resolved : Nat
  records_merged : Nat
deriving Repr

/-- `DataFusion.__init__`: the two registered fusion recipes. -/
def fusion_configs : List (String × FusionConfig) :=
  [("civic_engagement",
    { strategy := .geographic
      primary_source := "paris_participation"
      secondary_sources := ["paris_budget"]
      join_keys := [("paris_participation", "arrondissement"), ("paris_budget", "arrondissement")] }),
   ("urban_overview",
    { strategy := .hybrid
      primary_source := "paris_budget"
      secondary_sources := ["paris_participation", "transport_national"]
      join_keys := [("paris_budget", "secteur"), ("paris_participation", "arrondissement"),
                    ("transport_national", "region")] })]

/-- The `'data'` list of a processed-source payload, when it is a list. -/
def sourceDataList (v : Val) : Option (List Val) :=
  match v with
  | .vdict es =>
    match lookupA es "data" with
    | some (.vlist xs) => some xs
    | _ => none
  | _ => none

/-- `'data' in source and source['data']` (truthiness of the payload). -/
def hasNonemptyData (v : Val) : Bool :=
  match v with
  | .vdict es =>
    match lookupA es "data" with
    | some w => w.truthy
    | none => false
  | _ => false

/-- `DataFusion._validate_sources`: keep the primary source, then each
secondary source, whenever present with truthy `data`.  Note the source
does not require the primary to be present. -/
def validate_sources (processed_data : List (String × Val)) (config : FusionConfig) :
    List (String × Val) :=
  (match lookupA processed_data config.primary_source with
   | some pd => if hasNonemptyData pd then [(config.primary_source, pd)] else []
   | none => []) ++
  config.secondary_sources.filterMap (fun s =>
    match lookupA processed_data s with
    | some sd => if hasNonemptyData sd then some (s, sd) else none
    | none => none)

/-- `pd.DataFrame(list_of_records)`: non-dict entries become a single
positional column (labelled "0" here); no claim exercises them. -/
def dfOfData (xs : List Val) : List Rec :=
  xs.map (fun v =>
    match v with
    | .vdict r => r
    | w => [("0", w)])

/-- `c in df.columns`. -/
def colInDf (df : List Rec) (c : String) : Bool :=
  df.any (fun r => hasKeyR r c)

/-- Column-rename loop shared by the normalizers:
`if old_col in columns: df[new_col] = df[old_col]` (a row missing the
old column receives pandas `NaN`, modelled as `vnull`). -/
def renameCols (mapping : List (String × String)) (df : List Rec) : List Rec :=
  mapping.foldl (fun acc oc_nc =>
    if colInDf acc oc_nc.1 then acc.map (fun r => setK r oc_nc.2 (getD r oc_nc.1 .vnull)) else acc) df

/-- Fuel-driven worker for `extractAfter75` (structural recursion;
`fuel = cs.length` always suffices). -/
def extractAfter75Go : Nat → List Char → Option (List Char)
  | 0, _ => none
  | _ + 1, [] => none
  | fuel + 1, '7' :: '5' :: rest =>
    let ds := rest.takeWhile Char.isDigit
    if ds.isEmpty then extractAfter75Go fuel ('5' :: rest) else some ds
  | fuel + 1, _ :: rest => extractAfter75Go fuel rest

/-- `Series.str.extract(r'75(\d+)')` (re.search semantics): digits
following the first occurrence of "75" that is followed by at least one
digit. -/
def extractAfter75 (cs : List Char) : Option (List Char) :=
  extractAfter75Go cs.length cs

/-- `pd.cut(_, bins=[0, 100, 500, 1000, inf], labels=[...])`
(right-closed bins; out-of-range yields `NaN`). -/
def cutParticipationLevel (q : ℚ) : Val :=
  if 0 < q ∧ q ≤ 100 then .vstr "Faible"
  else if 100 < q ∧ q ≤ 500 then .vstr "Modérée"
  else if 500 < q ∧ q ≤ 1000 then .vstr "Élevée"
  else if 1000 < q then .vstr "Très élevée"
  else .vnull

/-- Column renames of `_normalize_participation_data`. -/
def participation_column_mapping : List (String × String) :=
  [("arrondissement", "zone_geo"), ("participants", "participation_count"),
   ("projets_actifs", "active_projects"), ("satisfaction", "satisfaction_score")]

/-- Elementwise fallible map (the semantics of a pandas column
operation that raises on the first bad cell): the whole frame fails if
any row fails. -/
def mapExcept {α β : Type} (f : α → Except String β) : List α → Except String (List β)
  | [] => Except.ok []
  | a :: t =>
    match f a with
    | Except.error e => Except.error e
    | Except.ok b =>
      match mapExcept f t with
      | Except.error e => Except.error e
      | Except.ok bs => Except.ok (b :: bs)

/-- `DataFusion._normalize_participation_data`: rename columns, extract
the numeric `arrondissement_code` from `zone_geo` (`.astype(int)` raises
if any cell has no match, failing the whole source), and categorise
`participation_count` via `pd.cut` (raises on a non-numeric cell). -/
def normalize_participation_data (df : List Rec) : Except String (List Rec) := do
  let renamed := renameCols participation_column_mapping df
  let withCode ←
    if colInDf renamed "zone_geo" then
      mapExcept (fun r =>
        match extractAfter75 (pyStr (getD r "zone_geo" .vnull)).data with
        | some ds => Except.ok (setK r "arrondissement_code" (.vnum (digitsToNat ds : ℚ)))
        | none => Except.error "cannot convert non-finite values (NA or inf) to integer") renamed
    else pure renamed
  if colInDf withCode "participation_count" then
    mapExcept (fun r =>
      match lookupR r "participation_count" with
      | some (.vnum q) => Except.ok (setK r "participation_level" (cutParticipationLevel q))
      | some .vnull => Except.ok (setK r "participation_level" .vnull)
      | none => Except.ok (setK r "participation_level" .vnull)
      | some _ => Except.error "cut: could not convert values to numeric") withCode
  else pure withCode

/-- Column renames of `_normalize_budget_data`. -/
def budget_column_mapping : List (String × String) :=
  [("secteur", "sector"), ("montant", "amount"), ("pourcentage", "percentage")]

/-- The hard-coded sector→districts lookup of `_normalize_budget_data`. -/
def sector_to_district : List (String × List Nat) :=
  [("Éducation", [1, 5, 6, 7]),
   ("Transport", [1, 2, 8, 9]),
   ("Logement", [10, 11, 18, 19, 20]),
   ("Santé", [3, 4, 12, 13]),
   ("Environnement", [14, 15, 16, 17]),
   ("Culture et Sports", [1, 4, 5, 6, 7, 8])]

/-- `f"750{district:02d}"`. -/
def zoneGeoOfDistrict (d : Nat) : String :=
  "750" ++ padZeros 2 (toString d)

/-- `row.get('amount', 0)` in the per-district division: missing gives
0, non-numeric raises a `TypeError`. -/
def amountOf (r : Rec) : Except String ℚ :=
  match lookupR r "amount" with
  | none => Except.ok 0
  | some (.vnum q) => Except.ok q
  | some (.vbool b) => Except.ok (if b then 1 else 0)
  | some _ => Except.error "unsupported operand type for /"

/-- `DataFusion._normalize_budget_data`: rename columns, then expand
each row whose `sector` is in the lookup table into one row per
district, splitting the amount evenly.  Rows with unmapped sectors are
dropped — unless no row at all maps, in which case the renamed frame is
kept unchanged (`if expanded_rows:` guard). -/
def normalize_budget_data (df : List Rec) : Except String (List Rec) := do
  let renamed := renameCols budget_column_mapping df
  let expanded ← renamed.foldlM (fun acc r =>
    let sectorName : Option String :=
      match getD r "sector" (.vstr "") with
      | .vstr s => some s
      | _ => none
    match sectorName.bind (lookupA sector_to_district) with
    | some districts => do
      let amt ← amountOf r
      pure (acc ++ districts.map (fun (d : Nat) =>
        setK (setK (setK r "arrondissement_code" (.vnum (d : ℚ)))
          "zone_geo" (.vstr (zoneGeoOfDistrict d)))
          "amount_per_district" (.vnum (amt / (districts.length : ℚ)))))
    | none => pure acc) ([] : List Rec)
  pure (if expanded.isEmpty then renamed else expanded)

/-- `DataFusion._normalize_transport_data`. -/
def normalize_transport_data (df : List Rec) : List Rec :=
  df.map (fun r => setK (setK r "zone_geo" (.vstr "PARIS")) "arrondissement_code" (.vnum 0))

/-- `overall_score` of `source.get('quality_metrics', {}).get('overall_score', 0)`. -/
def sourceQualityScore (v : Val) : ℚ :=
  match v with
  | .vdict es =>
    match lookupA es "quality_metrics" with
    | some (.vdict qs) =>
      match lookupA qs "overall_score" with
      | some (.vnum q) => q
      | _ => 0
    | _ => 0
  | _ => 0

/-- `DataFusion._prepare_data_for_fusion`: build a DataFrame per source,
normalize it by source name, and tag `_source` / `_source_quality`; any
exception drops that source (`except ... continue`). -/
def prepare_data_for_fusion (sources : List (String × Val)) : List (String × List Rec) :=
  sources.filterMap (fun sd =>
    match sourceDataList sd.2 with
    | none => none
    | some xs =>
      let df := dfOfData xs
      let normalized : Except String (List Rec) :=
        if sd.1 = "paris_participation" then normalize_participation_data df
        else if sd.1 = "paris_budget" then normalize_budget_data df
        else if sd.1 = "transport_national" then Except.ok (normalize_transport_data df)
        else Except.ok df
      match normalized with
      | Except.error _ => none
      | Except.ok ndf =>
        some (sd.1, ndf.map (fun r =>
          setK (setK r "_source" (.vstr sd.1)) "_source_quality" (.vnum (sourceQualityScore sd.2)))))

/-- The `arrondissement_code` cell of a prepared row (`none` is pandas
`NaN`; normalization only ever writes numeric codes). -/
def getCode (r : Rec) : Option ℚ :=
  match lookupR r "arrondissement_code" with
  | some (.vnum q) => some q
  | _ => none

/-- Whether a string starts with the given character. -/
def strStarts (s : String) (c : Char) : Bool :=
  match s.data with
  | [] => false
  | a :: _ => a = c

/-- Whether a string contains the given character. -/
def strContains (s : String) (c : Char) : Bool :=
  s.data.any (fun a => a = c)

/-- The part of a string before the first occurrence of `c`
(`s.split(c)[0]`). -/
def headBefore (s : String) (c : Char) : String :=
  String.mk (s.data.takeWhile (fun a => a ≠ c))

/-- The inner secondary-merge loops of `_fuse_geographic`: for each
secondary source, flatten the fields of every matching row under a
`{source}_{field}` name, skipping fields whose unprefixed name is
already present and fields starting with `_`. -/
def merge_secondary_fields (prepared : List (String × List Rec)) (config : FusionConfig)
    (code : ℚ) (record : Rec) : Rec :=
  config.secondary_sources.foldl (fun fused secondary_source =>
    match lookupA prepared secondary_source with
    | none => fused
    | some secondary_df =>
      (secondary_df.filter (fun s => getCode s = some code)).foldl (fun fused sec_record =>
        sec_record.foldl (fun fused kv =>
          if !hasKeyR fused kv.1 && !strStarts kv.1 '_' then
            setK fused (secondary_source ++ "_" ++ kv.1) kv.2
          else fused) fused) fused) record

/-- The per-row body of `_fuse_geographic`'s inner loop: merge the
matching secondary fields into the primary record, then stamp the three
fusion-metadata fields. -/
def fuse_row (prepared : List (String × List Rec)) (config : FusionConfig) (now : String)
    (code : ℚ) (primary_record : Rec) : Rec :=
  let fused := merge_secondary_fields prepared config code primary_record
  setK (setK (setK fused "_fusion_type" (.vstr "geographic"))
    "_fusion_key" (.vstr ("arrondissement_" ++ decStr (truncQ code) 0)))
    "_fused_at" (.vstr now)

/-- One iteration of `_fuse_geographic`'s loop over the unique codes:
`continue` on `NaN` (the empty contribution), else every primary row
carrying that code, passed through the row builder. -/
def groupRows {α K β : Type} [DecidableEq K] (f : α → Option K) (g : K → α → β) (l : List α) :
    Option K → List β
  | none => []
  | some k => (l.filter (fun a => f a = some k)).map (g k)

/-- `DataFusion._fuse_geographic`: group primary rows by unique
`arrondissement_code` (skipping `NaN`), attach matching secondary rows,
and stamp the fusion metadata fields.  Raises `KeyError` when the
primary source is absent from the prepared frames or lacks the code
column.  `now` stands for `datetime.now().isoformat()`. -/
def fuse_geographic (prepared : List (String × List Rec)) (config : FusionConfig) (now : String) :
    Except String (List Rec) :=
  match lookupA prepared config.primary_source with
  | none => Except.error ("KeyError: " ++ config.primary_source)
  | some primary_df =>
    if !colInDf primary_df "arrondissement_code" then
      Except.error "KeyError: arrondissement_code"
    else
      Except.ok ((uniquesFirst (primary_df.map getCode)).flatMap
        (groupRows getCode (fuse_row prepared config now) primary_df))

/-- `DataFusion._calculate_fusion_metrics`. -/
def calculate_fusion_metrics (fused_data : List Rec) (sources : List (String × Val)) :
    List (String × ℚ) :=
  if fused_data.isEmpty then
    [("fusion_coverage", 0), ("data_completeness", 0), ("source_diversity", 0)]
  else
    let total_records := (sources.map (fun sv => ((sourceDataList sv.2).getD []).length)).sum
    let fusion_coverage :=
      if 0 < total_records then (fused_data.length : ℚ) / (total_records : ℚ) * 100 else 0
    let all_fields := (fused_data.map List.length).sum
    let filled_fields :=
      (fused_data.map (fun r => (r.filter (fun kv => !isDroppedVal kv.2)).length)).sum
    let data_completeness :=
      if 0 < all_fields then (filled_fields : ℚ) / (all_fields : ℚ) * 100 else 0
    let unique_sources := uniquesFirst (fused_data.flatMap (fun r =>
      r.filterMap (fun kv =>
        if strContains kv.1 '_' && !strStarts kv.1 '_' then some (headBefore kv.1 '_') else none)))
    let source_diversity :=
      if !sources.isEmpty then (unique_sources.length : ℚ) / (sources.length : ℚ) * 100 else 0
    [("fusion_coverage", roundTo 2 fusion_coverage),
     ("data_completeness", roundTo 2 data_completeness),
     ("source_diversity", roundTo 2 source_diversity)]

/-- `DataFusion._generate_fusion_metadata`. -/
def generate_fusion_metadata (config : FusionConfig) (sources : List (String × Val))
    (fused_data : List Rec) (now : String) : Rec :=
  [("fusion_strategy", .vstr (strategyName config.strategy)),
   ("primary_source", .vstr config.primary_source),
   ("secondary_sources", .vlist (config.secondary_sources.map Val.vstr)),
   ("sources_used", .vlist (sources.map (fun sv => Val.vstr sv.1))),
   ("total_sources", .vnum (sources.length : ℚ)),
   ("records_before_fusion",
     .vnum (((sources.map (fun sv => ((sourceDataList sv.2).getD []).length)).sum : ℚ))),
   ("records_after_fusion", .vnum (fused_data.length : ℚ)),
   ("fusion_timestamp", .vstr now),
   ("conflicts_resolved", .vnum 0),
   ("join_keys_used", .vdict (config.join_keys.map (fun kv => (kv.1, Val.vstr kv.2))))]

/-- Generic association-list update. -/
def setA {β : Type} (xs : List (String × β)) (k : String) (v : β) : List (String × β) :=
  match xs with
  | [] => [(k, v)]
  | (k', v') :: rest => if k' = k then (k, v) :: rest else (k', v') :: setA rest k v

/-- `DataFusion._build_source_mapping`. -/
def build_source_mapping (fused_data : List Rec) : List (String × List String) :=
  fused_data.foldl (fun mapping record =>
    record.foldl (fun mapping kv =>
      let field_name := kv.1
      if strStarts field_name '_' then mapping
      else if strContains field_name '_' then
        let source := headBefore field_name '_'
        match lookupA mapping field_name with
        | none => mapping ++ [(field_name, [source])]
        | some srcs => if srcs.contains source then mapping else setA mapping field_name (srcs ++ [source])
      else
        match lookupA mapping field_name with
        | none => mapping ++ [(field_name, ["primary"])]
        | some _ => mapping) mapping) []

/-- `DataFusion._empty_fusion_result`. -/
def empty_fusion_result : FusionResult :=
  { fused_data := []
    fusion_metadata := [("error", .vstr "No valid sources for fusion")]
    quality_metrics := [("fusion_coverage", 0), ("data_completeness", 0), ("source_diversity", 0)]
    source_mapping := []
    conflicts_resolved := 0
    records_merged := 0 }

/-- `DataFusion.fuse_sources`: unknown recipe raises `ValueError`; no
valid source yields the empty result; otherwise prepare, fuse by
strategy (temporal/thematic are stubs returning `[]`, hybrid delegates
to geographic), and assemble the `FusionResult` with
`records_merged = len(fused_data)`. -/
def fuse_sources (processed_data : List (String × Val)) (fusion_type : String) (now : String) :
    Except String FusionResult :=
  match lookupA fusion_configs fusion_type with
  | none => Except.error ("Configuration fusion inconnue: " ++ fusion_type)
  | some config =>
    let available_sources := validate_sources processed_data config
    if available_sources.isEmpty then Except.ok empty_fusion_result
    else
      let prepared_data := prepare_data_for_fusion available_sources
      let fusedE : Except String (List Rec) :=
        match config.strategy with
        | .geographic => fuse_geographic prepared_data config now
        | .temporal => Except.ok []
        | .thematic => Except.ok []
        | .hybrid => fuse_geographic prepared_data config now
      match fusedE with
      | Except.error e => Except.error e
      | Except.ok fused_data =>
        Except.ok
          { fused_data := fused_data
            fusion_metadata := generate_fusion_metadata config available_sources fused_data now
            quality_metrics := calculate_fusion_metrics fused_data available_sources
            source_mapping := build_source_mapping fused_data
            conflicts_resolved := 0
            records_merged := fused_data.length }

/-! ## Source registry (`backend/app/data/sources.py`)

The network, the `csv` module and `json.loads` are external to the
repository: `fetch_data` takes them as parameters (`net` maps a URL to
the response or a raised exception; `csvLib`/`jsonLib` map a payload to
parsed records or a raised exception). -/

/-- `DataSource` dataclass (the `last_updated` field is never written by
the source and is omitted). -/
structure DataSource where
  name : String
  url : String
  format : String
  description : String
  update_frequency : String
deriving Repr, DecidableEq

/-- `DataSourceManager.__init__`: the three registered sources (the key
`paris_particiption` carries the source's own typo). -/
def data_sources : List (String × DataSource) :=
  [("paris_budget",
    { name := "Budget Paris Open Data"
      url := "https://opendata.paris.fr/api/explore/v2.1/catalog/datasets/budget-de-la-ville-de-paris/exports/csv"
      format := "csv"
      description := "Budget municipal de Paris par secteur"
      update_frequency := "yearly" }),
   ("paris_particiption",
    { name := "Participation Citoyenne Paris"
      url := "https://opendata.paris.fr/api/explore/v2.1/catalog/datasets/les-donnees-des-urnes-elections-europeennes-2024/exports/csv"
      format := "csv"
      description := "Données de participation citoyenne"
      update_frequency := "monthly" }),
   ("transport_national",
    { name := "Transport Data France"
      url := "https://transport.data.gouv.fr/api/stats"
      format := "json"
      description := "Statistiques nationales de transport"
      update_frequency := "daily" })]

/-- Outcome of `session.get(url)`: an HTTP response, or a raised
network exception. -/
inductive NetOutcome where
  | resp (status : Nat) (content : String)
  | exn (msg : String)

/-- `DataSourceManager._parse_csv`: on success a payload dict capped at
100 rows, on a `csv` library error an `{error: ...}` dict (its own
`try`/`except` never lets an exception escape). -/
def parse_csv (csvLib : String → Except String (List Rec)) (content : String)
    (source_name : String) (now : String) : Val :=
  match csvLib content with
  | Except.ok data =>
    .vdict [("source", .vstr source_name),
            ("format", .vstr "csv"),
            ("rows_count", .vnum (data.length : ℚ)),
            ("data", .vlist ((data.take 100).map Val.vdict)),
            ("sample", .vlist ((data.take 5).map Val.vdict)),
            ("retrieved_at", .vstr now)]
  | Except.error e => .vdict [("error", .vstr ("CSV parsing error: " ++ e))]

/-- `DataSourceManager.fetch_data`: raises `ValueError` for an
unregistered key; for a registered key the whole body is wrapped in
`try`/`except`, so network errors, non-200 statuses and parse errors
all come back as `{error: ...}` payloads. -/
def fetch_data (sources : List (String × DataSource)) (net : String → NetOutcome)
    (csvLib : String → Except String (List Rec)) (jsonLib : String → Except String Val)
    (source_key : String) (now : String) : Except String Val :=
  match lookupA sources source_key with
  | none => Except.error ("Source inconnue: " ++ source_key)
  | some source =>
    match net source.url with
    | .exn e => Except.ok (.vdict [("error", .vstr e)])
    | .resp status content =>
      if status = 200 then
        if source.format = "csv" then Except.ok (parse_csv csvLib content source.name now)
        else if source.format = "json" then
          match jsonLib content with
          | Except.ok v => Except.ok v
          | Except.error e => Except.ok (.vdict [("error", .vstr e)])
        else Except.ok (.vdict [("raw_content", .vstr content)])
      else Except.ok (.vdict [("error", .vstr ("HTTP " ++ toString status))])

/-- `DataSourceManager.fetch_all_sources`: one task per registered
source; each task's exception, if any, is recorded per key
(`results[source_key] = {"error": str(e)}`), never aborting the batch. -/
def fetch_all_sources (sources : List (String × DataSource)) (net : String → NetOutcome)
    (csvLib : String → Except String (List Rec)) (jsonLib : String → Except String Val)
    (now : String) : List (String × Val) :=
  sources.map (fun kv =>
    (kv.1,
     match fetch_data sources net csvLib jsonLib kv.1 now with
     | Except.ok v => v
     | Except.error e => .vdict [("error", .vstr e)]))

/-- `DataSourceManager.list_sources` (a pure read). -/
def list_sources (sources : List (String × DataSource)) : List (String × DataSource) :=
  sources

/-! ## Pipeline orchestrator (`backend/app/data/pipeline.py`)

The orchestrator state is the mutable part of `DataPipeline` together
with its source manager's registry.  A run's `try` block performs
external I/O (acquisition, database injection); it is abstracted as a
`body` parameter mapping the state at entry to either the results dict
or the message of a raised exception.  The guard, the `last_run`
update, the `finally` reset and `run_partial`'s swap/restore of the
registry are modelled exactly. -/

/-- Mutable state of `DataPipeline` and its registry. -/
structure PipeState where
  is_running : Bool
  last_run : Option Val
  sources : List (String × DataSource)
deriving Repr

/-- The concurrency-conflict result. -/
def pipeline_busy_error : Val :=
  .vdict [("error", .vstr "Pipeline déjà en cours d\u0027exécution")]

/-- Python `repr` of a list of strings (used in the no-valid-source
message of `run_partial_pipeline`). -/
def pyReprStrList (keys : List String) : String :=
  "[" ++ String.intercalate ", " (keys.map (fun k => "\u0027" ++ k ++ "\u0027")) ++ "]"

/-- `DataPipeline.run_full_pipeline`: reject immediately when a run is
active; otherwise set the guard, run the body, record `last_run` only
on success, and always clear the guard (`finally`).  The `except`
branch returns a `status: error` dict (its clock-derived fields are
irrelevant to every claim and omitted). -/
def run_full_pipeline (st : PipeState) (body : PipeState → Except String Val) : PipeState × Val :=
  if st.is_running then (st, pipeline_busy_error)
  else
    let st1 : PipeState := { st with is_running := true }
    match body st1 with
    | Except.ok results => ({ st1 with last_run := some results, is_running := false }, results)
    | Except.error e =>
      ({ st1 with is_running := false }, .vdict [("status", .vstr "error"), ("error", .vstr e)])

/-- `DataPipeline.run_partial_pipeline`: guard check, then restrict the
registry to the requested keys, delegate to `run_full_pipeline`, and
restore the original registry in a `finally`. -/
def runPartialPipeline (st : PipeState) (source_keys : List String)
    (body : PipeState → Except String Val) : PipeState × Val :=
  if st.is_running then (st, pipeline_busy_error)
  else
    let filtered_sources := st.sources.filter (fun kv => source_keys.contains kv.1)
    if filtered_sources.isEmpty then
      (st, .vdict [("error", .vstr ("Aucune source valide dans: " ++ pyReprStrList source_keys))])
    else
      let stepped := run_full_pipeline { st with sources := filtered_sources } body
      ({ stepped.1 with sources := st.sources }, stepped.2)

/-- Lookup in a dict value. -/
def dictGet (v : Val) (k : String) : Option Val :=
  match v with
  | .vdict es => lookupA es k
  | _ => none

/-- `v.get(k, d)` on a dict value. -/
def dictGetD (v : Val) (k : String) (d : Val) : Val :=
  (dictGet v k).getD d

/-- `DataPipeline.get_pipeline_status`. -/
def get_pipeline_status (st : PipeState) : Val :=
  .vdict [("is_running", .vbool st.is_running),
          ("last_run", st.last_run.getD .vnull),
          ("sources_configured", .vnum (st.sources.length : ℚ)),
          ("source_list", .vlist (st.sources.map (fun kv =>
            .vdict [("key", .vstr kv.1),
                    ("name", .vstr kv.2.name),
                    ("description", .vstr kv.2.description),
                    ("update_frequency", .vstr kv.2.update_frequency)])))]

/-! ## Documentation generator (`backend/app/data/documentation.py`)

Every helper is a pure function of its inputs plus the `now` timestamp
(`datetime.now().isoformat()`), threaded explicitly.  CPython set
iteration is modelled as first-appearance order (deterministic within a
process, which is what every claim about this module quantifies over). -/

/-- Whether `sub` is a leading subsequence of `l`. -/
def listStartsWith : List Char → List Char → Bool
  | _, [] => true
  | [], _ :: _ => false
  | a :: l, b :: m => a = b && listStartsWith l m

/-- Whether `sub` occurs contiguously in `l` (Python `sub in s`). -/
def listHasInfix : List Char → List Char → Bool
  | l, sub =>
    if listStartsWith l sub then true
    else
      match l with
      | [] => false
      | _ :: t => listHasInfix t sub

/-- Python `s.lower()` (ASCII; the accented letters in this code base
are already lowercase where it matters). -/
def pyLower (s : String) : String :=
  String.mk (s.data.map Char.toLower)

/-- Python `str.title()` after `replace('_', ' ')`. -/
def pyTitle (s : String) : String :=
  String.mk ((s.data.foldl (fun (acc : List Char × Bool) c =>
    if c.isAlpha then ((if acc.2 then c.toLower else c.toUpper) :: acc.1, true)
    else (c :: acc.1, false)) ([], false)).1.reverse)

/-- Stable insertion into a list sorted by a string key (equal keys keep
their relative order, as Python's stable `sorted`). -/
def insertSortedBy {α : Type} (key : α → String) (a : α) : List α → List α
  | [] => [a]
  | b :: l => if key a < key b then a :: b :: l else b :: insertSortedBy key a l

/-- Stable sort by a string key (Python `sorted(l, key=...)`). -/
def sortByKey {α : Type} (key : α → String) (l : List α) : List α :=
  l.foldl (fun acc a => insertSortedBy key a acc) []

/-- One entry of `_analyze_fields`' per-field dictionary. -/
structure FieldAnalysis where
  field_name : String
  inferred_type : String
  total_values : Nat
  non_null_values : Nat
  null_percentage : ℚ
  unique_values_count : Nat
  sample_values : List String
  is_key_field : Bool
  description : String
deriving Repr

/-- Prefix match of `re.match(r'\d{4}-\d{2}-\d{2}', s)`. -/
def matchesDateIso (cs : List Char) : Bool :=
  match cs with
  | a :: b :: c :: d :: '-' :: e :: f :: '-' :: g :: h :: _ =>
    [a, b, c, d, e, f, g, h].all Char.isDigit
  | _ => false

/-- Prefix match of `re.match(r'\d{2}/\d{2}/\d{4}', s)`. -/
def matchesDateFr (cs : List Char) : Bool :=
  match cs with
  | a :: b :: '/' :: c :: d :: '/' :: e :: f :: g :: h :: _ =>
    [a, b, c, d, e, f, g, h].all Char.isDigit
  | _ => false

/-- The boolean-token vocabulary of `_infer_field_type`. -/
def bool_tokens : List String :=
  ["true", "false", "yes", "no", "1", "0"]

/-- `AutoDocumentationGenerator._infer_field_type`: float-parse, then
date patterns, then boolean tokens, over a sample of at most 100
values; a category wins with a strict 80% majority, else text. -/
def infer_field_type (values : List Val) : String :=
  if values.isEmpty then "unknown"
  else
    let counts := (values.take 100).foldl (fun (acc : Nat × Nat × Nat) value =>
      let str_value := pyStrip (pyStr value)
      if (pyFloat str_value).isSome then (acc.1 + 1, acc.2.1, acc.2.2)
      else if matchesDateIso str_value.data || matchesDateFr str_value.data then
        (acc.1, acc.2.1 + 1, acc.2.2)
      else if bool_tokens.contains (pyLower str_value) then (acc.1, acc.2.1, acc.2.2 + 1)
      else acc) (0, 0, 0)
    let sample_size := min 100 values.length
    if (counts.1 : ℚ) / (sample_size : ℚ) > 8/10 then "numeric"
    else if (counts.2.1 : ℚ) / (sample_size : ℚ) > 8/10 then "date"
    else if (counts.2.2 : ℚ) / (sample_size : ℚ) > 8/10 then "boolean"
    else "text"

/-- Name fragments flagging a potential key field. -/
def key_indicators : List String :=
  ["id", "code", "key", "identifier", "uuid"]

/-- `AutoDocumentationGenerator._is_potential_key`: key-ish name, or
uniqueness ratio above 0.95. -/
def is_potential_key (field_name : String) (unique_count total_count : Nat) : Bool :=
  let name_based := key_indicators.any (fun ind => listHasInfix (pyLower field_name).data ind.data)
  let uniqueness_ratio : ℚ := if 0 < total_count then (unique_count : ℚ) / (total_count : ℚ) else 0
  name_based || decide (uniqueness_ratio > 95/100)

/-- The curated field-description table of `_generate_field_description`. -/
def field_descriptions : List (String × String) :=
  [("arrondissement", "Code de l\u0027arrondissement parisien (format 75XXX)"),
   ("participants", "Nombre de citoyens ayant participé aux consultations"),
   ("projets_actifs", "Nombre de projets citoyens en cours dans la zone"),
   ("satisfaction", "Score de satisfaction des citoyens (0-5)"),
   ("commentaires", "Nombre de commentaires déposés par les citoyens"),
   ("secteur", "Secteur budgétaire (Éducation, Transport, Santé, etc.)"),
   ("montant", "Montant budgétaire alloué en euros"),
   ("pourcentage", "Pourcentage du budget total"),
   ("annee", "Année budgétaire de référence"),
   ("nom", "Nom ou libellé descriptif"),
   ("description", "Description détaillée de l\u0027élément"),
   ("date", "Date de l\u0027événement ou de la mesure"),
   ("created_at", "Date de création de l\u0027enregistrement"),
   ("updated_at", "Date de dernière modification")]

/-- `AutoDocumentationGenerator._generate_field_description` (the
`source_name` parameter is unused in the source as well). -/
def generate_field_description (field_name : String) (field_type : String)
    (_source_name : String) : String :=
  match lookupA field_descriptions field_name with
  | some d => d
  | none =>
    if field_type = "numeric" then "Valeur numérique représentant " ++ field_name
    else if field_type = "text" then "Information textuelle concernant " ++ field_name
    else if field_type = "date" then "Date liée à " ++ field_name
    else if field_type = "boolean" then "Indicateur vrai/faux pour " ++ field_name
    else "Champ " ++ field_name ++ " de type " ++ field_type

/-- `AutoDocumentationGenerator._analyze_fields`: per-field statistics
over the union of keys, sorted by field name. -/
def analyze_fields (data_records : List Rec) (source_name : String) : List FieldAnalysis :=
  if data_records.isEmpty then []
  else
    let all_fields := uniquesFirst (data_records.flatMap (fun r => r.map Prod.fst))
    let analysis := all_fields.map (fun field_name =>
      let values : List Val := data_records.map (fun record => getD record field_name .vnull)
      let non_null_values := values.filter (fun v => !isDroppedVal v)
      let field_type := infer_field_type non_null_values
      let null_count := values.length - non_null_values.length
      let null_percentage : ℚ :=
        if 0 < values.length then (null_count : ℚ) / (values.length : ℚ) * 100 else 0
      let unique_count := (uniquesFirst (non_null_values.map pyStr)).length
      { field_name := field_name
        inferred_type := field_type
        total_values := values.length
        non_null_values := non_null_values.length
        null_percentage := roundTo 2 null_percentage
        unique_values_count := unique_count
        sample_values := uniquesFirst ((non_null_values.take 5).map pyStr)
        is_key_field := is_potential_key field_name unique_count values.length
        description := generate_field_description field_name field_type source_name })
    sortByKey FieldAnalysis.field_name analysis

/-- The dict value of one `_analyze_fields` entry. -/
def fieldAnalysisVal (f : FieldAnalysis) : Val :=
  .vdict [("field_name", .vstr f.field_name),
          ("inferred_type", .vstr f.inferred_type),
          ("total_values", .vnum (f.total_values : ℚ)),
          ("non_null_values", .vnum (f.non_null_values : ℚ)),
          ("null_percentage", .vnum f.null_percentage),
          ("unique_values_count", .vnum (f.unique_values_count : ℚ)),
          ("sample_values", .vlist (f.sample_values.map Val.vstr)),
          ("is_key_field", .vbool f.is_key_field),
          ("description", .vstr f.description)]

/-- `AutoDocumentationGenerator._identify_key_fields`. -/
def identify_key_fields (field_analysis : List FieldAnalysis) : List String :=
  (field_analysis.filter (fun f => f.is_key_field)).map (fun f => f.field_name)

/-- `AutoDocumentationGenerator._get_transformation_category`. -/
def get_transformation_category (transformation : String) : String :=
  let tl := (pyLower transformation).data
  if ["nettoyage", "suppression", "clean"].any (fun w => listHasInfix tl w.data) then "cleaning"
  else if ["validation", "vérification", "check"].any (fun w => listHasInfix tl w.data) then "validation"
  else if ["formatage", "format", "devise"].any (fun w => listHasInfix tl w.data) then "formatting"
  else if ["calcul", "taux", "score"].any (fun w => listHasInfix tl w.data) then "calculation"
  else if ["normalisation", "standard"].any (fun w => listHasInfix tl w.data) then "normalization"
  else "other"

/-- The curated transformation-description table. -/
def transformation_descriptions : List (String × String) :=
  [("Nettoyage des valeurs nulles", "Suppression ou traitement des valeurs manquantes dans le dataset"),
   ("Normalisation des chaînes de caractères", "Standardisation du format des textes (trim, casse, etc.)"),
   ("Validation des types de données", "Vérification et conversion des types de données appropriés"),
   ("Calcul métriques de qualité", "Évaluation automatique de la qualité des données"),
   ("Validation montants budgétaires", "Contrôle de cohérence des montants financiers"),
   ("Formatage devises", "Conversion des montants en format monétaire standardisé"),
   ("Validation codes arrondissements", "Vérification du format des codes postaux parisiens"),
   ("Calcul taux de participation", "Calcul des ratios de participation citoyenne")]

/-- `AutoDocumentationGenerator._get_transformation_description`. -/
def get_transformation_description (transformation : String) : String :=
  (lookupA transformation_descriptions transformation).getD ("Transformation: " ++ transformation)

/-- `AutoDocumentationGenerator._categorize_transformations`. -/
def categorize_transformations (transformations : List String) : List (String × Nat) :=
  transformations.foldl (fun cats t =>
    let c := get_transformation_category t
    match lookupA cats c with
    | some n => setA cats c (n + 1)
    | none => cats)
    [("cleaning", 0), ("validation", 0), ("formatting", 0), ("calculation", 0), ("normalization", 0)]

/-- `AutoDocumentationGenerator._document_transformations`. -/
def document_transformations (transformations : List String) : Val :=
  .vdict [("transformations_applied", .vlist (transformations.map Val.vstr)),
          ("total_transformations", .vnum (transformations.length : ℚ)),
          ("transformation_categories",
            .vdict ((categorize_transformations transformations).map
              (fun kv => (kv.1, Val.vnum (kv.2 : ℚ))))),
          ("transformation_details", .vlist (transformations.map (fun t =>
            .vdict [("transformation", .vstr t),
                    ("category", .vstr (get_transformation_category t)),
                    ("description", .vstr (get_transformation_description t))])))]

/-- `AutoDocumentationGenerator._generate_validation_rules`. -/
def generate_validation_rules (field : FieldAnalysis) : List String :=
  let fn := (pyLower field.field_name).data
  let rules :=
    (if listHasInfix fn "email".data then ["Format email valide"]
     else if listHasInfix fn "phone".data || listHasInfix fn "telephone".data then
       ["Format téléphone français"]
     else if listHasInfix fn "arrondissement".data then ["Code arrondissement parisien (75001-75020)"]
     else if listHasInfix fn "montant".data || listHasInfix fn "budget".data then
       ["Montant positif en euros"]
     else if listHasInfix fn "pourcentage".data then ["Valeur entre 0 et 100"]
     else []) ++
    (if field.inferred_type = "numeric" then ["Valeur numérique"]
     else if field.inferred_type = "date" then ["Format date ISO (YYYY-MM-DD)"]
     else []) ++
    (if field.null_percentage < 5 then ["Champ obligatoire"] else [])
  if rules.isEmpty then ["Aucune validation spécifique"] else rules

/-- `AutoDocumentationGenerator._generate_field_documentation`. -/
def generate_field_documentation (field_analysis : List FieldAnalysis) (source_name : String) :
    List (String × Val) :=
  field_analysis.foldl (fun docs field =>
    setA docs field.field_name (.vdict
      [("technical_name", .vstr field.field_name),
       ("display_name", .vstr (pyTitle (String.mk (field.field_name.data.map
         (fun c => if c = '_' then ' ' else c))))),
       ("description", .vstr field.description),
       ("data_type", .vstr field.inferred_type),
       ("required", .vbool (decide (field.null_percentage < 5))),
       ("validation_rules", .vlist ((generate_validation_rules field).map Val.vstr)),
       ("sample_values", .vlist (field.sample_values.map Val.vstr)),
       ("data_quality", .vdict
         [("completeness", .vnum (100 - field.null_percentage)),
          ("uniqueness", .vnum (if 0 < field.total_values then
            (field.unique_values_count : ℚ) / (field.total_values : ℚ) * 100 else 0))]),
       ("source_system", .vstr source_name)])) []

/-- The record rows of a processed payload (`source.get('data', [])`;
rows are dicts in every payload the pipeline produces — a non-dict row
would raise in CPython and is modelled as an empty record). -/
def recordsOf (v : Val) : List Rec :=
  match v with
  | .vdict es =>
    match lookupA es "data" with
    | some (.vlist xs) => xs.map (fun r =>
      match r with
      | .vdict es' => es'
      | _ => [])
    | _ => []
  | _ => []

/-- The `transformations_applied` list of a payload's metadata (entries
are strings in every pipeline payload). -/
def transformationsOfSource (v : Val) : List String :=
  match dictGet (dictGetD v "metadata" (.vdict [])) "transformations_applied" with
  | some (.vlist xs) => xs.filterMap (fun w =>
    match w with
    | .vstr s => some s
    | _ => none)
  | _ => []

/-- `AutoDocumentationGenerator.generate_source_documentation`. -/
def generate_source_documentation (source_name : String) (source_data : Val) : Val :=
  let data_records := recordsOf source_data
  let quality_metrics := dictGetD source_data "quality_metrics" (.vdict [])
  let metadata := dictGetD source_data "metadata" (.vdict [])
  let field_analysis := analyze_fields data_records source_name
  .vdict
    [("source_metadata", .vdict
       [("source_name", .vstr source_name),
        ("source_type", dictGetD metadata "source" (.vstr "unknown")),
        ("records_count", .vnum (data_records.length : ℚ)),
        ("processed_at", (dictGet source_data "processed_at").getD .vnull),
        ("data_type", dictGetD source_data "data_type" (.vstr "unknown"))]),
     ("data_schema", .vdict
       [("fields", .vlist (field_analysis.map fieldAnalysisVal)),
        ("total_fields", .vnum (field_analysis.length : ℚ)),
        ("key_fields", .vlist ((identify_key_fields field_analysis).map Val.vstr)),
        ("nullable_fields", .vlist ((field_analysis.filter
          (fun f => f.null_percentage > 0)).map (fun f => Val.vstr f.field_name)))]),
     ("quality_assessment", .vdict
       [("overall_score", dictGetD quality_metrics "overall_score" (.vnum 0)),
        ("completeness", dictGetD quality_metrics "completeness" (.vnum 0)),
        ("consistency", dictGetD quality_metrics "consistency" (.vnum 0)),
        ("validity", dictGetD quality_metrics "validity" (.vnum 0)),
        ("quality_issues", dictGetD quality_metrics "issues" (.vlist []))]),
     ("transformations", document_transformations (transformationsOfSource source_data)),
     ("sample_data", .vlist ((data_records.take 3).map Val.vdict)),
     ("field_documentation", .vdict (generate_field_documentation field_analysis source_name))]

/-- `AutoDocumentationGenerator._analyze_fusion_schema`: `{}` for empty
fused data, else the field analysis of the fused records. -/
def analyze_fusion_schema (fused_data : List Rec) : Val :=
  if fused_data.isEmpty then .vdict []
  else .vlist ((analyze_fields fused_data "fusion").map fieldAnalysisVal)

/-- Numeric metadata read `metadata.get(k, d)` (`_generate_lineage_documentation`). -/
def mdNum (metadata : Rec) (k : String) (d : ℚ) : ℚ :=
  match lookupR metadata k with
  | some (.vnum q) => q
  | _ => d

/-- `AutoDocumentationGenerator._generate_lineage_documentation`.  The
`merge_ratio` division is over the exact rationals; a zero
`records_before_fusion` (a `ZeroDivisionError` in CPython) does not
occur for pipeline-produced results and yields 0 here. -/
def generate_lineage_documentation (fr : FusionResult) : Val :=
  .vdict
    [("fusion_strategy", (lookupR fr.fusion_metadata "fusion_strategy").getD .vnull),
     ("primary_source", (lookupR fr.fusion_metadata "primary_source").getD .vnull),
     ("secondary_sources", (lookupR fr.fusion_metadata "secondary_sources").getD .vnull),
     ("field_origins", .vdict (fr.source_mapping.map
       (fun kv => (kv.1, Val.vlist (kv.2.map Val.vstr))))),
     ("transformation_chain", .vstr "acquisition → processing → fusion → output"),
     ("data_flow", .vdict
       [("input_records", (lookupR fr.fusion_metadata "records_before_fusion").getD (.vnum 0)),
        ("output_records", .vnum (fr.records_merged : ℚ)),
        ("merge_ratio", .vnum (roundTo 2
          ((fr.records_merged : ℚ) / mdNum fr.fusion_metadata "records_before_fusion" 1)))])]

/-- `AutoDocumentationGenerator._document_fusion_rules`. -/
def document_fusion_rules (fusion_metadata : Rec) : Val :=
  .vdict
    [("fusion_strategy", (lookupR fusion_metadata "fusion_strategy").getD .vnull),
     ("join_keys", (lookupR fusion_metadata "join_keys_used").getD (.vdict [])),
     ("conflict_resolution", .vstr "primary_source_wins"),
     ("aggregation_methods", .vdict
       [("numeric_fields", .vstr "sum"),
        ("categorical_fields", .vstr "primary_source"),
        ("text_fields", .vstr "concatenate")]),
     ("merge_criteria", .vstr "geographic_proximity"),
     ("data_validation", .vstr "post_fusion_quality_check")]

/-- `AutoDocumentationGenerator.generate_fusion_documentation`. -/
def generate_fusion_documentation (fr : FusionResult) : Val :=
  .vdict
    [("fusion_metadata", .vdict fr.fusion_metadata),
     ("fusion_strategy", (lookupR fr.fusion_metadata "fusion_strategy").getD (.vstr "unknown")),
     ("sources_involved", (lookupR fr.fusion_metadata "sources_used").getD (.vlist [])),
     ("records_merged", .vnum (fr.records_merged : ℚ)),
     ("conflicts_resolved", .vnum (fr.conflicts_resolved : ℚ)),
     ("fusion_quality", .vdict (fr.quality_metrics.map (fun kv => (kv.1, Val.vnum kv.2)))),
     ("source_field_mapping", .vdict (fr.source_mapping.map
       (fun kv => (kv.1, Val.vlist (kv.2.map Val.vstr))))),
     ("fusion_schema", analyze_fusion_schema fr.fused_data),
     ("lineage_tracking", generate_lineage_documentation fr),
     ("fusion_rules", document_fusion_rules fr.fusion_metadata)]

/-- One entry of `_generate_global_schema`'s field map. -/
structure GlobalField where
  sources : List String
  ftype : String
  description : String
deriving Repr

/-- The dict value of a `GlobalField`. -/
def globalFieldVal (gf : GlobalField) : Val :=
  .vdict [("sources", .vlist (gf.sources.map Val.vstr)),
          ("type", .vstr gf.ftype),
          ("description", .vstr gf.description)]

/-- `AutoDocumentationGenerator._generate_global_schema`: union of the
fields of the first 5 records of every source, then any field
introduced purely by fusion, with per-field contributing sources. -/
def generate_global_schema (processed_data : List (String × Val))
    (fusion_result : Option FusionResult) : Val :=
  let source_fields := processed_data.foldl (fun (af : List (String × GlobalField)) sd =>
    let data_records := recordsOf sd.2
    if data_records.isEmpty then af
    else (data_records.take 5).foldl (fun af (record : Rec) =>
      record.foldl (fun af (kv : String × Val) =>
        let af :=
          match lookupA af kv.1 with
          | none => af ++ [(kv.1,
            { sources := []
              ftype := infer_field_type [kv.2]
              description := generate_field_description kv.1 "unknown" sd.1 : GlobalField })]
          | some _ => af
        match lookupA af kv.1 with
        | some gf =>
          if gf.sources.contains sd.1 then af
          else setA af kv.1 { gf with sources := gf.sources ++ [sd.1] }
        | none => af) af) af) []
  let all_fields : List (String × GlobalField) :=
    match fusion_result with
    | some fr =>
      if fr.fused_data.isEmpty then source_fields
      else (fr.fused_data.take 5).foldl (fun af (record : Rec) =>
        record.foldl (fun (af : List (String × GlobalField)) (kv : String × Val) =>
          match lookupA af kv.1 with
          | none => af ++ [(kv.1,
            { sources := ["fusion"]
              ftype := infer_field_type [kv.2]
              description := "Champ généré par fusion: " ++ kv.1 : GlobalField })]
          | some _ => af) af) source_fields
    | none => source_fields
  .vdict
    [("unified_schema", .vdict (all_fields.map (fun kv => (kv.1, globalFieldVal kv.2)))),
     ("total_unique_fields", .vnum (all_fields.length : ℚ)),
     ("cross_source_fields", .vdict ((all_fields.filter (fun kv => kv.2.sources.length > 1)).map
       (fun kv => (kv.1, globalFieldVal kv.2)))),
     ("fusion_specific_fields", .vdict ((all_fields.filter
       (fun kv => kv.2.sources.contains "fusion")).map (fun kv => (kv.1, globalFieldVal kv.2))))]

/-- `max(set(all), key=all.count)`: the first element, in set order, of
maximal multiplicity. -/
def mostCommon (all : List String) : Option String :=
  (uniquesFirst all).foldl (fun best t =>
    match best with
    | none => some t
    | some b => if all.count t > all.count b then some t else best) none

/-- `AutoDocumentationGenerator._generate_transformation_summary`. -/
def generate_transformation_summary (processed_data : List (String × Val))
    (fusion_result : Option FusionResult) : Val :=
  let all_transformations := processed_data.flatMap (fun sd => transformationsOfSource sd.2)
  let uniq := uniquesFirst all_transformations
  .vdict
    [("total_transformations", .vnum (all_transformations.length : ℚ)),
     ("unique_transformations", .vlist (uniq.map Val.vstr)),
     ("transformation_frequency", .vdict (uniq.map
       (fun t => (t, Val.vnum (all_transformations.count t : ℚ))))),
     ("most_common_transformation",
       match mostCommon all_transformations with
       | some t => .vstr t
       | none => .vnull),
     ("fusion_applied", .vbool fusion_result.isSome)]

/-- `AutoDocumentationGenerator.generate_comprehensive_documentation`:
generation metadata (stamped with `now`), per-source documentation,
fusion documentation when present, global schema, transformation
summary. -/
def generate_comprehensive_documentation (processed_data : List (String × Val))
    (fusion_result : Option FusionResult) (now : String) : Val :=
  .vdict
    [("generation_metadata", .vdict
       [("generated_at", .vstr now),
        ("generator_version", .vstr "1.0.0"),
        ("total_sources", .vnum (processed_data.length : ℚ)),
        ("includes_fusion", .vbool fusion_result.isSome)]),
     ("source_documentation", .vdict (processed_data.map
       (fun sd => (sd.1, generate_source_documentation sd.1 sd.2)))),
     ("fusion_documentation",
       match fusion_result with
       | some fr => generate_fusion_documentation fr
       | none => .vdict []),
     ("global_schema", generate_global_schema processed_data fusion_result),
     ("transformation_summary", generate_transformation_summary processed_data fusion_result)]

/-! ## Derived quantities and concrete payloads used by the theorems -/

/-- The quantity bounded by the spec's fusion invariant:
`sum(len(source['data']) for source in sources used)`, where the
sources used are exactly those selected by `_validate_sources` (the
same sum the source computes as `records_before_fusion`). -/
def used_sources_record_sum (processed_data : List (String × Val)) (config : FusionConfig) : Nat :=
  ((validate_sources processed_data config).map
    (fun sv => ((sourceDataList sv.2).getD []).length)).sum

/-- A processed-data mapping with a single one-record budget source
(sector `Logement`, which the expansion table maps to 5 districts). -/
def oneBudgetRow : List (String × Val) :=
  [("paris_budget", .vdict [("data", .vlist
    [.vdict [("secteur", .vstr "Logement"), ("montant", .vnum 1000)]])])]

/-- A processed-data mapping where only the secondary source of the
`civic_engagement` recipe is present. -/
def onlySecondary : List (String × Val) :=
  [("paris_budget", .vdict [("data", .vlist [.vdict [("x", .vnum 1)]])])]

/-- A single validated budget record whose `pourcentage` (87.4) drives
the unrounded overall quality score to 94.96. -/
def boundaryBudget : List Rec :=
  [[("montant", Val.vnum 50000), ("pourcentage", Val.vnum (437/5))]]

/-- The registered `civic_engagement` recipe (the first `FUSION_CONFIGS`
entry, whose primary source is the participation dataset). -/
def civic_config : FusionConfig :=
  { strategy := .geographic
    primary_source := "paris_participation"
    secondary_sources := ["paris_budget"]
    join_keys := [("paris_participation", "arrondissement"), ("paris_budget", "arrondissement")] }

/-- The metadata stamping `_fuse_geographic` applies to a primary row
that has no matching secondary rows: the row itself plus
`_fusion_type`, `_fusion_key` (derived from the row's own code) and
`_fused_at`. -/
def stamp_fusion_meta (now : String) (r : Rec) : Rec :=
  match getCode r with
  | some code =>
    setK (setK (setK r "_fusion_type" (.vstr "geographic"))
      "_fusion_key" (.vstr ("arrondissement_" ++ decStr (truncQ code) 0)))
      "_fused_at" (.vstr now)
  | none => r

/-- A processed-data mapping with a single one-record participation
source (arrondissement 75001). -/
def oneParticipationRow : List (String × Val) :=
  [("paris_participation", .vdict [("data", .vlist
    [.vdict [("arrondissement", .vstr "75001"), ("participants", .vnum 120)]])])]

/-- A two-row primary frame with parseable codes, for the C4 witness. -/
def c4_primary : List Rec :=
  [[("arrondissement_code", Val.vnum 1), ("participants", Val.vnum 10)],
   [("arrondissement_code", Val.vnum 2), ("participants", Val.vnum 20)]]

/-- Prepared frames for the C4 witness: the two-row primary plus one
secondary source whose only record matches neither primary code. -/
def c4_prepared : List (String × List Rec) :=
  [("paris_participation", c4_primary),
   ("paris_budget", [[("arrondissement_code", Val.vnum 3), ("amount", Val.vnum 5)]])]

/-! ## Theorems -/


theorem uniquesFirstGo_nil {α : Type} [DecidableEq α] (fuel : Nat) :
    uniquesFirstGo fuel ([] : List α) = [] := by
  cases fuel <;> rfl

theorem uniquesFirstGo_fuel {α : Type} [DecidableEq α] :
    ∀ (f1 f2 : Nat) (l : List α), l.length ≤ f1 → l.length ≤ f2 →
      uniquesFirstGo f1 l = uniquesFirstGo f2 l := by
  intro f1
  induction f1 with
  | zero =>
    intro f2 l h1 _
    have hl : l = [] := List.length_eq_zero.mp (Nat.le_zero.mp h1)
    subst hl
    rw [uniquesFirstGo_nil, uniquesFirstGo_nil]
  | succ f ih =>
    intro f2 l h1 h2
    cases l with
    | nil => rw [uniquesFirstGo_nil, uniquesFirstGo_nil]
    | cons a t =>
      cases f2 with
      | zero => simp at h2
      | succ f2' =>
        simp only [uniquesFirstGo]
        congr 1
        have ht1 : t.length ≤ f := by simp only [List.length_cons] at h1; omega
        have ht2 : t.length ≤ f2' := by simp only [List.length_cons] at h2; omega
        exact ih f2' _ (le_trans (List.length_filter_le _ _) ht1)
          (le_trans (List.length_filter_le _ _) ht2)

theorem uniquesFirst_cons {α : Type} [DecidableEq α] (a : α) (t : List α) :
    uniquesFirst (a :: t) = a :: uniquesFirst (t.filter (fun b => b ≠ a)) := by
  simp only [uniquesFirst, List.length_cons, uniquesFirstGo]
  congr 1
  exact uniquesFirstGo_fuel t.length (t.filter (fun b => b ≠ a)).length _
    (List.length_filter_le _ _) (le_refl _)

theorem uniquesFirst_subset {α : Type} [DecidableEq α] :
    ∀ (n : Nat) (l : List α), l.length ≤ n → ∀ x ∈ uniquesFirst l, x ∈ l := by
  intro n
  induction n with
  | zero =>
    intro l hl x hx
    have : l = [] := List.length_eq_zero.mp (Nat.le_zero.mp hl)
    subst this
    simp [uniquesFirst, uniquesFirstGo_nil] at hx
  | succ n ih =>
    intro l hl x hx
    cases l with
    | nil => simp [uniquesFirst, uniquesFirstGo_nil] at hx
    | cons a t =>
      rw [uniquesFirst_cons] at hx
      have hlen : t.length ≤ n := by simp only [List.length_cons] at hl; omega
      rcases List.mem_cons.mp hx with h | h
      · exact h ▸ List.mem_cons_self a t
      · have := ih (t.filter (fun b => b ≠ a)) (le_trans (List.length_filter_le _ _) hlen) x h
        exact List.mem_cons_of_mem a (List.mem_of_mem_filter this)

theorem groups_flatMap_perm {α K β : Type} [DecidableEq K] (f : α → Option K) (g : K → α → β)
    (g' : α → β) :
    ∀ (n : Nat) (l : List α), l.length ≤ n →
      (∀ a ∈ l, ∀ k, f a = some k → g k a = g' a) →
      ((uniquesFirst (l.map f)).flatMap (groupRows f g l)).Perm
        ((l.filter (fun a => (f a).isSome)).map g') := by
  intro n
  induction n with
  | zero =>
    intro l hl _
    have : l = [] := List.length_eq_zero.mp (Nat.le_zero.mp hl)
    subst this
    simp [uniquesFirst, uniquesFirstGo_nil]
  | succ n ih =>
    intro l hl hg
    cases l with
    | nil => simp [uniquesFirst, uniquesFirstGo_nil]
    | cons a t =>
      have hlen : t.length ≤ n := by simp only [List.length_cons] at hl; omega
      rw [show (a :: t).map f = f a :: t.map f from rfl, uniquesFirst_cons, List.flatMap_cons]
      have hfm : (t.map f).filter (fun b => b ≠ f a) =
          (t.filter (fun x => f x ≠ f a)).map f := by
        rw [List.filter_map]
        rfl
      cases hfa : f a with
      | none =>
        rw [hfa] at hfm
        have hrest : ((uniquesFirst ((t.map f).filter (fun b => b ≠ none))).flatMap
            (groupRows f g (a :: t))) =
            ((uniquesFirst ((t.filter (fun x => f x ≠ none)).map f)).flatMap
            (groupRows f g (t.filter (fun x => f x ≠ none)))) := by
          rw [hfm, List.flatMap_def, List.flatMap_def]
          congr 1
          apply List.map_congr_left
          intro oc hoc
          have hmem : oc ∈ (t.filter (fun x => f x ≠ none)).map f :=
            uniquesFirst_subset _ _ (le_refl _) oc hoc
          obtain ⟨x, hx, hfx⟩ := List.mem_map.mp hmem
          have hxne : f x ≠ none := by simpa using List.of_mem_filter hx
          cases oc with
          | none => exact absurd hfx hxne
          | some k =>
            simp only [groupRows]
            have hk0 : ¬ (f a = some k) := by rw [hfa]; simp
            rw [List.filter_cons_of_neg (by simpa using hk0)]
            congr 1
            rw [List.filter_filter]
            apply List.filter_congr
            intro y _
            by_cases hy : f y = some k
            · simp [hy]
            · simp [hy]
        have hsub : ∀ a' ∈ t.filter (fun x => f x ≠ none), ∀ k, f a' = some k → g k a' = g' a' :=
          fun a' ha' k hk => hg a' (List.mem_cons_of_mem a (List.mem_of_mem_filter ha')) k hk
        have hIH := ih (t.filter (fun x => f x ≠ none))
          (le_trans (List.length_filter_le _ _) hlen) hsub
        have hright : ((a :: t).filter (fun x => (f x).isSome)).map g' =
            ((t.filter (fun x => f x ≠ none)).filter (fun x => (f x).isSome)).map g' := by
          rw [List.filter_cons_of_neg (by simp [hfa])]
          congr 1
          rw [List.filter_filter]
          apply List.filter_congr
          intro y _
          by_cases hy : f y = none
          · simp [hy]
          · simp [hy]
        simp only [groupRows]
        rw [List.nil_append, hrest, hright]
        exact hIH
      | some k₀ =>
        rw [hfa] at hfm
        have hrest : ((uniquesFirst ((t.map f).filter (fun b => b ≠ some k₀))).flatMap
            (groupRows f g (a :: t))) =
            ((uniquesFirst ((t.filter (fun x => f x ≠ some k₀)).map f)).flatMap
            (groupRows f g (t.filter (fun x => f x ≠ some k₀)))) := by
          rw [hfm, List.flatMap_def, List.flatMap_def]
          congr 1
          apply List.map_congr_left
          intro oc hoc
          have hmem : oc ∈ (t.filter (fun x => f x ≠ some k₀)).map f :=
            uniquesFirst_subset _ _ (le_refl _) oc hoc
          obtain ⟨x, hx, hfx⟩ := List.mem_map.mp hmem
          have hxne : f x ≠ some k₀ := by simpa using List.of_mem_filter hx
          cases oc with
          | none => simp only [groupRows]
          | some k =>
            simp only [groupRows]
            have hkk : ¬ (f a = some k) := by
              rw [hfa]
              intro hcon
              exact absurd (hfx ▸ hcon.symm ▸ rfl : f x = some k₀) hxne
            rw [List.filter_cons_of_neg (by simpa using hkk)]
            congr 1
            rw [List.filter_filter]
            apply List.filter_congr
            intro y _
            by_cases hy : f y = some k
            · have hkne : ¬ (k = k₀) := fun hcon => hxne (by rw [hfx, hcon])
              simp [hy, hkne]
            · simp [hy]
        have hsub : ∀ a' ∈ t.filter (fun x => f x ≠ some k₀), ∀ k, f a' = some k → g k a' = g' a' :=
          fun a' ha' k hk => hg a' (List.mem_cons_of_mem a (List.mem_of_mem_filter ha')) k hk
        have hIH := ih (t.filter (fun x => f x ≠ some k₀))
          (le_trans (List.length_filter_le _ _) hlen) hsub
        simp only [groupRows]
        rw [List.filter_cons_of_pos (by simp [hfa]), List.map_cons,
          hg a (List.mem_cons_self a t) k₀ hfa,
          List.map_congr_left (fun x hx => hg x (List.mem_cons_of_mem a (List.mem_of_mem_filter hx))
            k₀ (by simpa using List.of_mem_filter hx)),
          hrest, List.cons_append]
        rw [List.filter_cons_of_pos (by simp [hfa]), List.map_cons]
        apply List.Perm.cons
        refine (List.Perm.append_left _ hIH).trans ?_
        rw [← List.map_append]
        apply List.Perm.map
        have h1 : t.filter (fun x => f x = some k₀) =
            (t.filter (fun x => (f x).isSome)).filter (fun x => f x = some k₀) := by
          rw [List.filter_filter]
          apply List.filter_congr
          intro y _
          by_cases hy : f y = some k₀
          · simp [hy]
          · simp [hy]
        have h2 : (t.filter (fun x => f x ≠ some k₀)).filter (fun x => (f x).isSome) =
            (t.filter (fun x => (f x).isSome)).filter (fun x => !(decide (f x = some k₀))) := by
          rw [List.filter_filter, List.filter_filter]
          apply List.filter_congr
          intro y _
          by_cases hy : f y = some k₀
          · simp [hy]
          · simp [hy]
        rw [h1, h2]
        exact List.filter_append_perm _ _

theorem lookupA_mem {β : Type} : ∀ (xs : List (String × β)) (k : String) (v : β),
    lookupA xs k = some v → (k, v) ∈ xs := by
  intro xs
  induction xs with
  | nil => intro k v h; simp [lookupA] at h
  | cons p t ih =>
    intro k v h
    obtain ⟨pk, pv⟩ := p
    simp only [lookupA] at h
    split_ifs at h with hk
    · injection h with h2
      subst h2
      subst hk
      exact List.mem_cons_self _ _
    · exact List.mem_cons_of_mem _ (ih k v h)

theorem lookupA_filterMap_mem {α γ : Type} (F : String × α → Option (String × γ)) :
    ∀ (l : List (String × α)) (k : String) (g : γ),
      lookupA (l.filterMap F) k = some g → ∃ sd ∈ l, F sd = some (k, g) := by
  intro l
  induction l with
  | nil => intro k g h; simp [lookupA] at h
  | cons sd t ih =>
    intro k g h
    rw [List.filterMap_cons] at h
    cases hF : F sd with
    | none =>
      rw [hF] at h
      obtain ⟨x, hx, hfx⟩ := ih k g h
      exact ⟨x, List.mem_cons_of_mem _ hx, hfx⟩
    | some p =>
      obtain ⟨pk, pv⟩ := p
      rw [hF] at h
      simp only [lookupA] at h
      split_ifs at h with hk
      · injection h with h2
        exact ⟨sd, List.mem_cons_self _ _, by rw [hF, hk, h2]⟩
      · obtain ⟨x, hx, hfx⟩ := ih k g h
        exact ⟨x, List.mem_cons_of_mem _ hx, hfx⟩

theorem foldl_fixed_id {α β : Type} (step : β → α → β) :
    ∀ (l : List α) (b : β), (∀ (x : β), ∀ a ∈ l, step x a = x) → l.foldl step b = b := by
  intro l
  induction l with
  | nil => intro b _; rfl
  | cons a t ih =>
    intro b h
    rw [List.foldl_cons, h b a (List.mem_cons_self a t)]
    exact ih b (fun x a2 ha2 => h x a2 (List.mem_cons_of_mem a ha2))

theorem merge_secondary_id (prepared : List (String × List Rec)) (config : FusionConfig)
    (code : ℚ) (r : Rec)
    (h : ∀ s ∈ config.secondary_sources, ∀ sdf, lookupA prepared s = some sdf →
      sdf.filter (fun sr => getCode sr = some code) = []) :
    merge_secondary_fields prepared config code r = r := by
  unfold merge_secondary_fields
  apply foldl_fixed_id
  intro x s hs
  dsimp only
  cases hl : lookupA prepared s with
  | none => rfl
  | some sdf => simp only [h s hs sdf hl, List.foldl_nil]

theorem getCode_isSome_hasKey (r : Rec) (h : (getCode r).isSome = true) :
    hasKeyR r "arrondissement_code" = true := by
  unfold getCode at h
  unfold hasKeyR
  cases hl : lookupR r "arrondissement_code" with
  | none => rw [hl] at h; simp at h
  | some v => simp [hl]

theorem exPure_eq_ok {α : Type} (a : α) : (pure a : Except String α) = Except.ok a := rfl

theorem exBind_ok {α β : Type} (a : α) (g : α → Except String β) :
    (Except.ok a >>= g) = g a := rfl

theorem exBind_error {α β : Type} (e : String) (g : α → Except String β) :
    ((Except.error e : Except String α) >>= g) = Except.error e := rfl

theorem mapExcept_ok_length {α β : Type} (f : α → Except String β) :
    ∀ (l : List α) (l2 : List β), mapExcept f l = Except.ok l2 → l2.length = l.length := by
  intro l
  induction l with
  | nil =>
    intro l2 h
    simp only [mapExcept] at h
    injection h with h2
    rw [← h2]
    rfl
  | cons a t ih =>
    intro l2 h
    simp only [mapExcept] at h
    cases hfa : f a with
    | error e => rw [hfa] at h; exact Except.noConfusion h
    | ok b =>
      rw [hfa] at h
      dsimp only at h
      cases hmt : mapExcept f t with
      | error e => rw [hmt] at h; exact Except.noConfusion h
      | ok bs =>
        rw [hmt] at h
        dsimp only at h
        injection h with h2
        rw [← h2, List.length_cons, List.length_cons, ih bs hmt]

theorem renameCols_length : ∀ (mapping : List (String × String)) (df : List Rec),
    (renameCols mapping df).length = df.length := by
  intro mapping
  induction mapping with
  | nil => intro df; rfl
  | cons m rest ih =>
    intro df
    rw [renameCols, List.foldl_cons]
    refine Eq.trans (b := ((fun (acc : List Rec) (oc_nc : String × String) =>
      if colInDf acc oc_nc.1 then
        acc.map (fun r => setK r oc_nc.2 (getD r oc_nc.1 .vnull))
      else acc) df m).length) (ih _) ?_
    show (if colInDf df m.1 then
        df.map (fun r => setK r m.2 (getD r m.1 .vnull)) else df).length = df.length
    split_ifs
    · exact List.length_map _ _
    · rfl

theorem normalize_participation_length (df ndf : List Rec)
    (h : normalize_participation_data df = Except.ok ndf) : ndf.length = df.length := by
  simp only [normalize_participation_data] at h
  have hsecond : ∀ wc : List Rec,
      (if colInDf wc "participation_count" then
        mapExcept (fun r =>
          match lookupR r "participation_count" with
          | some (.vnum q) => Except.ok (setK r "participation_level" (cutParticipationLevel q))
          | some .vnull => Except.ok (setK r "participation_level" .vnull)
          | none => Except.ok (setK r "participation_level" .vnull)
          | some _ => Except.error "cut: could not convert values to numeric") wc
      else pure wc) = Except.ok ndf → ndf.length = wc.length := by
    intro wc hw
    split_ifs at hw
    · exact mapExcept_ok_length _ wc ndf hw
    · rw [exPure_eq_ok] at hw
      injection hw with h2
      rw [← h2]
  rw [← renameCols_length participation_column_mapping df]
  split_ifs at h with h1
  · cases hm : mapExcept (fun r =>
        match extractAfter75 (pyStr (getD r "zone_geo" .vnull)).data with
        | some ds => Except.ok (setK r "arrondissement_code" (.vnum (digitsToNat ds : ℚ)))
        | none => Except.error "cannot convert non-finite values (NA or inf) to integer")
        (renameCols participation_column_mapping df) with
    | error e => rw [hm, exBind_error] at h; exact Except.noConfusion h
    | ok wc =>
      rw [hm, exBind_ok] at h
      rw [hsecond wc h]
      exact mapExcept_ok_length _ _ wc hm
  · rw [exPure_eq_ok, exBind_ok] at h
    exact hsecond _ h

theorem fuse_geographic_length_le (prepared : List (String × List Rec)) (config : FusionConfig)
    (now : String) (primary_df out : List Rec)
    (hp : lookupA prepared config.primary_source = some primary_df)
    (h : fuse_geographic prepared config now = Except.ok out) :
    out.length ≤ primary_df.length := by
  simp only [fuse_geographic, hp] at h
  cases hcol : colInDf primary_df "arrondissement_code" with
  | false => rw [hcol] at h; simp at h
  | true =>
    rw [hcol] at h
    simp only [Bool.not_true, Bool.false_eq_true, if_false] at h
    injection h with h2
    have hg : ∀ a ∈ primary_df, ∀ k : ℚ, getCode a = some k →
        fuse_row prepared config now k a =
          (fun r => match getCode r with
            | some c => fuse_row prepared config now c r
            | none => r) a := by
      intro a ha k hk
      simp only [hk]
    have hperm := groups_flatMap_perm getCode (fuse_row prepared config now)
      (fun r => match getCode r with
        | some c => fuse_row prepared config now c r
        | none => r) primary_df.length primary_df (le_refl _) hg
    rw [← h2]
    refine le_trans (le_of_eq hperm.length_eq) ?_
    rw [List.length_map]
    exact List.length_filter_le _ _

/-- `roundHalfEven` of a nonnegative value is nonnegative. -/
theorem roundHalfEven_nonneg {q : ℚ} (h : 0 ≤ q) : 0 ≤ roundHalfEven q := by
  simp only [roundHalfEven]
  have h0 : (0:ℤ) ≤ ⌊q⌋ := Int.floor_nonneg.mpr h
  split_ifs <;> omega

/-- `roundHalfEven` never rounds past an integer upper bound. -/
theorem roundHalfEven_le {q : ℚ} {n : ℤ} (h : q ≤ (n:ℚ)) : roundHalfEven q ≤ n := by
  have hfn : ⌊q⌋ ≤ n := by
    have h2 := Int.floor_le_floor h
    rwa [Int.floor_intCast] at h2
  have hfl : (⌊q⌋:ℚ) ≤ q := Int.floor_le q
  simp only [roundHalfEven]
  split_ifs with h1 h2 h3
  · exact hfn
  · have hlt : (⌊q⌋:ℚ) < (n:ℚ) := by linarith
    have := Int.cast_lt.mp hlt
    omega
  · exact hfn
  · have hge : (1:ℚ)/2 ≤ q - (⌊q⌋:ℚ) := le_of_not_lt h1
    have hlt : (⌊q⌋:ℚ) < (n:ℚ) := by linarith
    have := Int.cast_lt.mp hlt
    omega

/-- Python rounding preserves nonnegativity. -/
theorem roundTo_nonneg {q : ℚ} (nd : Nat) (h : 0 ≤ q) : 0 ≤ roundTo nd q := by
  simp only [roundTo]
  have h1 : (0:ℤ) ≤ roundHalfEven (q * 10 ^ nd) := roundHalfEven_nonneg (by positivity)
  apply div_nonneg
  · exact_mod_cast h1
  · positivity

/-- Python rounding preserves the upper bound 100. -/
theorem roundTo_le_hundred {q : ℚ} (nd : Nat) (h : q ≤ 100) : roundTo nd q ≤ 100 := by
  simp only [roundTo]
  have hp : (0:ℚ) < 10 ^ nd := by positivity
  have h1 : roundHalfEven (q * 10 ^ nd) ≤ 100 * 10 ^ nd := by
    apply roundHalfEven_le
    push_cast
    exact mul_le_mul_of_nonneg_right h (le_of_lt hp)
  rw [div_le_iff₀ hp]
  calc ((roundHalfEven (q * 10 ^ nd)):ℚ) ≤ ((100 * 10 ^ nd : ℤ):ℚ) := by exact_mod_cast h1
    _ = 100 * 10 ^ nd := by push_cast; ring

/-- A `count/total*100` percentage lies in `[0, 100]`. -/
theorem ratio_mul_hundred_bounds {c n : ℚ} (h0 : 0 ≤ c) (hn : 0 < n) (hcn : c ≤ n) :
    0 ≤ c / n * 100 ∧ c / n * 100 ≤ 100 := by
  constructor
  · positivity
  · have h1 : c / n ≤ 1 := (div_le_one hn).mpr hcn
    calc c / n * 100 ≤ 1 * 100 := mul_le_mul_of_nonneg_right h1 (by norm_num)
      _ = 100 := one_mul _

/-- A record never has more falsy cells than cells. -/
theorem empty_fields_le_total_fields (data : List Rec) :
    empty_fields data ≤ total_fields data := by
  simp only [empty_fields, total_fields]
  apply List.sum_le_sum
  intro row _
  exact List.length_filter_le _ _

/-- The completeness sub-score lies in `[0, 100]`. -/
theorem completenessOf_bounds (data : List Rec) :
    0 ≤ completenessOf data ∧ completenessOf data ≤ 100 := by
  simp only [completenessOf]
  split_ifs with h
  · have hE : (empty_fields data : ℚ) ≤ (total_fields data : ℚ) := by
      exact_mod_cast empty_fields_le_total_fields data
    have hT : (0:ℚ) < (total_fields data : ℚ) := by exact_mod_cast h
    have hE0 : (0:ℚ) ≤ (empty_fields data : ℚ) := by positivity
    exact ratio_mul_hundred_bounds (by linarith) hT (by linarith)
  · norm_num

/-- The consistency sub-score lies in `[0, 100]` for every data type. -/
theorem calculate_consistency_bounds (data : List Rec) (dt : String) :
    0 ≤ calculate_consistency data dt ∧ calculate_consistency data dt ≤ 100 := by
  simp only [calculate_consistency]
  split_ifs with h1 h2 h3 h4
  · norm_num
  · exact ⟨le_max_left 0 _, max_le (by norm_num) (min_le_left _ _)⟩
  · exact ⟨le_max_left 0 _, max_le (by norm_num) (min_le_left _ _)⟩
  · have hne : data ≠ [] := by simpa [List.isEmpty_iff] using h1
    have hlen : (0:ℚ) < (data.length : ℚ) := by
      exact_mod_cast List.length_pos.mpr hne
    have hcount : (((data.filter (fun row =>
        getNumD row "projets_actifs" ≤ getNumD row "participants")).length : ℚ)) ≤
        (data.length : ℚ) := by
      exact_mod_cast List.length_filter_le _ _
    exact ratio_mul_hundred_bounds (by positivity) hlen hcount
  · norm_num

/-- The validity sub-score lies in `[0, 100]` for every data type. -/
theorem calculate_validity_bounds (data : List Rec) (dt : String) :
    0 ≤ calculate_validity data dt ∧ calculate_validity data dt ≤ 100 := by
  simp only [calculate_validity]
  split_ifs with h hb hp
  · norm_num
  · have hne : data ≠ [] := by simpa [List.isEmpty_iff] using h
    have hlen : (0:ℚ) < (data.length : ℚ) := by exact_mod_cast List.length_pos.mpr hne
    exact ratio_mul_hundred_bounds (by positivity) hlen
      (by exact_mod_cast List.length_filter_le budget_row_valid data)
  · have hne : data ≠ [] := by simpa [List.isEmpty_iff] using h
    have hlen : (0:ℚ) < (data.length : ℚ) := by exact_mod_cast List.length_pos.mpr hne
    exact ratio_mul_hundred_bounds (by positivity) hlen
      (by exact_mod_cast List.length_filter_le participation_row_valid data)
  · have hne : data ≠ [] := by simpa [List.isEmpty_iff] using h
    have hlen : (0:ℚ) < (data.length : ℚ) := by exact_mod_cast List.length_pos.mpr hne
    exact ratio_mul_hundred_bounds (by positivity) hlen (le_refl _)

/-- The unrounded weighted score lies in `[0, 100]`. -/
theorem overallScoreOf_bounds (data : List Rec) (dt : String) :
    0 ≤ overallScoreOf data dt ∧ overallScoreOf data dt ≤ 100 := by
  obtain ⟨hc0, hc1⟩ := completenessOf_bounds data
  obtain ⟨hk0, hk1⟩ := calculate_consistency_bounds data dt
  obtain ⟨hv0, hv1⟩ := calculate_validity_bounds data dt
  simp only [overallScoreOf]
  constructor <;> linarith

/-- C2 counterexample: on a budget record with `pourcentage = 87.4` the
unrounded weighted score is 94.96, which rounds up to a returned
`overall_score` of 95.0 while `quality_level` (computed before
rounding) is `good`; hence the level is *not* the threshold band of the
returned score (band of 95.0 is `excellent`), and the returned score is
not the weighted combination of the returned sub-scores
(`0.3·100 + 0.4·87.4 + 0.3·100 = 94.96 ≠ 95.0`). -/
theorem C2_counterexample_rounding_mismatch :
    (calculate_quality_metrics boundaryBudget "budget").overall_score = 95 ∧
    (calculate_quality_metrics boundaryBudget "budget").quality_level = DataQuality.good ∧
    (calculate_quality_metrics boundaryBudget "budget").quality_level ≠
      qualityLevelOf ((calculate_quality_metrics boundaryBudget "budget").overall_score) ∧
    (calculate_quality_metrics boundaryBudget "budget").overall_score ≠
      (calculate_quality_metrics boundaryBudget "budget").completeness * (3/10) +
      (calculate_quality_metrics boundaryBudget "budget").consistency * (4/10) +
      (calculate_quality_metrics boundaryBudget "budget").validity * (3/10) := by
  have hbv : budget_row_valid [("montant", Val.vnum 50000), ("pourcentage", Val.vnum (437/5))] =
      true := by
    simp +decide [budget_row_valid, getNumD, lookupR]
    norm_num
  have habs : |(100:ℚ) - 437/5| = 63/5 := by
    rw [show (100:ℚ) - 437/5 = 63/5 by norm_num]
    exact abs_of_nonneg (by norm_num)
  have hmax : ((0:ℚ) ⊔ (100 - |(100:ℚ) - 437/5|)) = 437/5 := by
    rw [habs, show (100:ℚ) - 63/5 = 437/5 by norm_num]
    exact max_eq_right (by norm_num)
  have hcomp : completenessOf boundaryBudget = 100 := by
    simp +decide [boundaryBudget, completenessOf, total_fields, empty_fields, Val.truthy]
  have hcons : calculate_consistency boundaryBudget "budget" = 437/5 := by
    simp +decide [boundaryBudget, calculate_consistency, getNumD, lookupR]
    exact hmax
  have hvalid : calculate_validity boundaryBudget "budget" = 100 := by
    simp +decide [boundaryBudget, calculate_validity, hbv]
  have hov : overallScoreOf boundaryBudget "budget" = 2374/25 := by
    simp only [overallScoreOf, hcomp, hcons, hvalid]
    norm_num
  have hr : roundTo 1 ((2374:ℚ)/25) = 95 := by
    norm_num [roundTo, roundHalfEven, Int.fract]
  refine ⟨?_, ?_, ?_, ?_⟩
  · show roundTo 1 (overallScoreOf boundaryBudget "budget") = 95
    rw [hov, hr]
  · show qualityLevelOf (overallScoreOf boundaryBudget "budget") = DataQuality.good
    rw [hov]
    norm_num [qualityLevelOf]
  · show qualityLevelOf (overallScoreOf boundaryBudget "budget") ≠
      qualityLevelOf (roundTo 1 (overallScoreOf boundaryBudget "budget"))
    rw [hov, hr]
    norm_num [qualityLevelOf]
    decide
  · show roundTo 1 (overallScoreOf boundaryBudget "budget") ≠
      roundTo 1 (completenessOf boundaryBudget) * (3/10) +
      roundTo 1 (calculate_consistency boundaryBudget "budget") * (4/10) +
      roundTo 1 (calculate_validity boundaryBudget "budget") * (3/10)
    rw [hov, hr, hcomp, hcons, hvalid]
    norm_num [roundTo, roundHalfEven, Int.fract]

/-- C2 (amended): on a non-empty record list the returned
`overall_score` is `round(0.3·completeness + 0.4·consistency +
0.3·validity, 1)` computed from the *unrounded* sub-scores,
`quality_level` is the threshold band of the *unrounded* weighted score
(not of the returned rounded one), and all four returned scores lie in
`[0, 100]`. -/
theorem C2_quality_metrics_amended (data : List Rec) (data_type : String) (h : data ≠ []) :
    (calculate_quality_metrics data data_type).overall_score =
      roundTo 1 (overallScoreOf data data_type) ∧
    (calculate_quality_metrics data data_type).quality_level =
      qualityLevelOf (overallScoreOf data data_type) ∧
    (0 ≤ (calculate_quality_metrics data data_type).completeness ∧
      (calculate_quality_metrics data data_type).completeness ≤ 100) ∧
    (0 ≤ (calculate_quality_metrics data data_type).consistency ∧
      (calculate_quality_metrics data data_type).consistency ≤ 100) ∧
    (0 ≤ (calculate_quality_metrics data data_type).validity ∧
      (calculate_quality_metrics data data_type).validity ≤ 100) ∧
    (0 ≤ (calculate_quality_metrics data data_type).overall_score ∧
      (calculate_quality_metrics data data_type).overall_score ≤ 100) := by
  have hne : data.isEmpty = false := List.isEmpty_eq_false.mpr h
  refine ⟨?_, ?_, ⟨?_, ?_⟩, ⟨?_, ?_⟩, ⟨?_, ?_⟩, ⟨?_, ?_⟩⟩ <;>
    simp only [calculate_quality_metrics, hne, Bool.false_eq_true, if_false]
  · exact roundTo_nonneg 1 (completenessOf_bounds data).1
  · exact roundTo_le_hundred 1 (completenessOf_bounds data).2
  · exact roundTo_nonneg 1 (calculate_consistency_bounds data data_type).1
  · exact roundTo_le_hundred 1 (calculate_consistency_bounds data data_type).2
  · exact roundTo_nonneg 1 (calculate_validity_bounds data data_type).1
  · exact roundTo_le_hundred 1 (calculate_validity_bounds data data_type).2
  · exact roundTo_nonneg 1 (overallScoreOf_bounds data data_type).1
  · exact roundTo_le_hundred 1 (overallScoreOf_bounds data data_type).2

/-- C2 witness: the amended statement at the concrete boundary record. -/
theorem C2_quality_metrics_amended_witness :
    (boundaryBudget ≠ []) ∧
    ((calculate_quality_metrics boundaryBudget "budget").overall_score =
      roundTo 1 (overallScoreOf boundaryBudget "budget") ∧
    (calculate_quality_metrics boundaryBudget "budget").quality_level =
      qualityLevelOf (overallScoreOf boundaryBudget "budget") ∧
    (0 ≤ (calculate_quality_metrics boundaryBudget "budget").completeness ∧
      (calculate_quality_metrics boundaryBudget "budget").completeness ≤ 100) ∧
    (0 ≤ (calculate_quality_metrics boundaryBudget "budget").consistency ∧
      (calculate_quality_metrics boundaryBudget "budget").consistency ≤ 100) ∧
    (0 ≤ (calculate_quality_metrics boundaryBudget "budget").validity ∧
      (calculate_quality_metrics boundaryBudget "budget").validity ≤ 100) ∧
    (0 ≤ (calculate_quality_metrics boundaryBudget "budget").overall_score ∧
      (calculate_quality_metrics boundaryBudget "budget").overall_score ≤ 100)) :=
  ⟨by simp [boundaryBudget],
   C2_quality_metrics_amended boundaryBudget "budget" (by simp [boundaryBudget])⟩

/-- C3: the spec says `parse_numeric` handles European decimal notation
with `parse_numeric("1 234,56 €") == 1234.56`, and the source's own
comment claims the remaining commas become decimal points — but the
strip regex `[€$,\s]` already deletes every comma, so the substitution
is dead code and the call returns 123456.0.  The `"not a number" → 0.0`
half of the claim does hold. -/
theorem C3_parse_numeric_strips_decimal_comma :
    parse_numeric (.vstr "1 234,56 €") = 123456 ∧
    parse_numeric (.vstr "1 234,56 €") ≠ 123456/100 ∧
    parse_numeric (.vstr "not a number") = 0 := by
  refine ⟨rfl, ?_, rfl⟩
  rw [show parse_numeric (.vstr "1 234,56 €") = 123456 from rfl]
  norm_num

/-- C10: `process_data` never fabricates records: the transform step is
a one-to-one map, and cleaning/validation only drop records, so
`processed_rows ≤ raw_rows` on every call. -/
theorem C10_processing_never_fabricates_records (raw : Val) (data_type now nowMonth : String)
    (year : Int) :
    (process_data raw data_type now nowMonth year).processed_rows ≤
      (process_data raw data_type now nowMonth year).raw_rows := by
  have htrans : ∀ (d : List Rec) (dt n : String),
      (transform_to_standard_format d dt n).length ≤ d.length := by
    intro d dt n
    unfold transform_to_standard_format
    split
    · simp
    · rw [List.length_map]
  have hvalid : ∀ (d : List Rec) (dt : String),
      (if dt = "budget" then validate_budget_data year d
       else if dt = "participation" then validate_participation_data nowMonth d
       else if dt = "transport" then validate_transport_data d
       else d).length ≤ d.length := by
    intro d dt
    split_ifs
    · exact List.length_filterMap_le _ _
    · exact List.length_filterMap_le _ _
    · exact Nat.le_refl _
    · exact Nat.le_refl _
  have hclean : (clean_raw_data raw).length ≤ (rawDataList raw).length :=
    List.length_filterMap_le _ _
  simp only [process_data]
  exact le_trans (le_trans (htrans _ _ _) (hvalid _ _)) hclean

/-- C5: requesting a run while one is active returns the busy-error
dict immediately, for both `run_full_pipeline` and
`run_partial_pipeline`, with the whole state — in particular
`last_run` — unchanged (no queuing). -/
theorem C5_busy_guard_rejects_without_mutation (st : PipeState)
    (body bodyP : PipeState → Except String Val) (source_keys : List String)
    (h : st.is_running = true) :
    run_full_pipeline st body = (st, pipeline_busy_error) ∧
    runPartialPipeline st source_keys bodyP = (st, pipeline_busy_error) ∧
    (run_full_pipeline st body).1.last_run = st.last_run ∧
    (runPartialPipeline st source_keys bodyP).1.last_run = st.last_run := by
  have h1 : run_full_pipeline st body = (st, pipeline_busy_error) := by
    unfold run_full_pipeline
    rw [h]
    simp
  have h2 : runPartialPipeline st source_keys bodyP = (st, pipeline_busy_error) := by
    unfold runPartialPipeline
    rw [h]
    simp
  exact ⟨h1, h2, by rw [h1], by rw [h2]⟩

/-- C5 witness: a concrete running state rejects a new run unchanged. -/
theorem C5_busy_guard_witness :
    ((⟨true, some (.vstr "r"), data_sources⟩ : PipeState).is_running = true) ∧
    (run_full_pipeline ⟨true, some (.vstr "r"), data_sources⟩ (fun _ => Except.ok .vnull) =
      (⟨true, some (.vstr "r"), data_sources⟩, pipeline_busy_error) ∧
     runPartialPipeline ⟨true, some (.vstr "r"), data_sources⟩ ["paris_budget"]
        (fun _ => Except.ok .vnull) = (⟨true, some (.vstr "r"), data_sources⟩, pipeline_busy_error) ∧
     (run_full_pipeline ⟨true, some (.vstr "r"), data_sources⟩ (fun _ => Except.ok .vnull)).1.last_run =
      (⟨true, some (.vstr "r"), data_sources⟩ : PipeState).last_run ∧
     (runPartialPipeline ⟨true, some (.vstr "r"), data_sources⟩ ["paris_budget"]
        (fun _ => Except.ok .vnull)).1.last_run =
      (⟨true, some (.vstr "r"), data_sources⟩ : PipeState).last_run) :=
  ⟨rfl, C5_busy_guard_rejects_without_mutation _ _ _ _ rfl⟩

/-- C6: a `run_partial_pipeline` call that actually starts a run (guard
clear, at least one requested key registered) restores the registry in
a `finally`, whatever the delegated run does — the final state's source
set equals the original one, and `get_pipeline_status` immediately
afterwards reports the original source count. -/
theorem C6_partial_run_restores_registry (st : PipeState) (source_keys : List String)
    (body : PipeState → Except String Val)
    (hrun : st.is_running = false)
    (hmatch : st.sources.filter (fun kv => source_keys.contains kv.1) ≠ []) :
    (runPartialPipeline st source_keys body).1.sources = st.sources ∧
    dictGet (get_pipeline_status (runPartialPipeline st source_keys body).1) "sources_configured" =
      some (.vnum (st.sources.length : ℚ)) := by
  have hfilter : (st.sources.filter (fun kv => source_keys.contains kv.1)).isEmpty = false :=
    List.isEmpty_eq_false.mpr hmatch
  have hsources : (runPartialPipeline st source_keys body).1.sources = st.sources := by
    unfold runPartialPipeline
    rw [hrun]
    simp only [Bool.false_eq_true, if_false]
    rw [hfilter]
    simp
  have hstat : ∀ x : PipeState,
      dictGet (get_pipeline_status x) "sources_configured" = some (.vnum (x.sources.length : ℚ)) := by
    intro x
    simp +decide [get_pipeline_status, dictGet, lookupA]
  exact ⟨hsources, by rw [hstat, hsources]⟩

/-- C6 witness: a concrete partial run over one registered key leaves
the three-source registry intact. -/
theorem C6_partial_run_restores_registry_witness :
    ((⟨false, none, data_sources⟩ : PipeState).is_running = false) ∧
    ((⟨false, none, data_sources⟩ : PipeState).sources.filter
      (fun kv => ["paris_budget"].contains kv.1) ≠ []) ∧
    ((runPartialPipeline ⟨false, none, data_sources⟩ ["paris_budget"]
        (fun _ => Except.error "boom")).1.sources =
      (⟨false, none, data_sources⟩ : PipeState).sources ∧
     dictGet (get_pipeline_status (runPartialPipeline ⟨false, none, data_sources⟩ ["paris_budget"]
        (fun _ => Except.error "boom")).1) "sources_configured" =
      some (.vnum ((⟨false, none, data_sources⟩ : PipeState).sources.length : ℚ))) :=
  ⟨rfl, by decide, C6_partial_run_restores_registry _ _ _ rfl (by decide)⟩

/-- C7: `fetch_data` raises the unknown-source `ValueError` exactly for
unregistered keys; for a registered key it never raises — network
exceptions, non-200 statuses, CSV parse errors and JSON parse errors
all yield `{error: ...}` payloads — and `fetch_all_sources` returns one
entry per registered source in registry order, recording per-source
failures without aborting the batch. -/
theorem C7_fetch_error_handling (sources : List (String × DataSource))
    (net : String → NetOutcome) (csvLib : String → Except String (List Rec))
    (jsonLib : String → Except String Val) (source_key now : String) :
    (lookupA sources source_key = none ↔
      fetch_data sources net csvLib jsonLib source_key now =
        Except.error ("Source inconnue: " ++ source_key)) ∧
    (∀ src, lookupA sources source_key = some src →
      ∀ e, fetch_data sources net csvLib jsonLib source_key now ≠ Except.error e) ∧
    (∀ src e, lookupA sources source_key = some src → net src.url = NetOutcome.exn e →
      fetch_data sources net csvLib jsonLib source_key now =
        Except.ok (.vdict [("error", .vstr e)])) ∧
    (∀ src status content, lookupA sources source_key = some src →
      net src.url = NetOutcome.resp status content → status ≠ 200 →
      fetch_data sources net csvLib jsonLib source_key now =
        Except.ok (.vdict [("error", .vstr ("HTTP " ++ toString status))])) ∧
    (∀ src content e, lookupA sources source_key = some src → src.format = "csv" →
      net src.url = NetOutcome.resp 200 content → csvLib content = Except.error e →
      fetch_data sources net csvLib jsonLib source_key now =
        Except.ok (.vdict [("error", .vstr ("CSV parsing error: " ++ e))])) ∧
    (∀ src content e, lookupA sources source_key = some src → src.format = "json" →
      net src.url = NetOutcome.resp 200 content → jsonLib content = Except.error e →
      fetch_data sources net csvLib jsonLib source_key now =
        Except.ok (.vdict [("error", .vstr e)])) ∧
    (fetch_all_sources sources net csvLib jsonLib now).map Prod.fst = sources.map Prod.fst := by
  have hOk : ∀ src, lookupA sources source_key = some src →
      ∀ e, fetch_data sources net csvLib jsonLib source_key now ≠ Except.error e := by
    intro src hsrc e
    simp only [fetch_data, hsrc]
    cases hn : net src.url with
    | exn e2 => simp
    | resp status content =>
      by_cases h200 : status = 200
      · simp only [if_pos h200]
        by_cases hcsv : src.format = "csv"
        · simp only [if_pos hcsv]
          cases csvLib content <;> simp [parse_csv]
        · simp only [if_neg hcsv]
          by_cases hjson : src.format = "json"
          · simp only [if_pos hjson]
            cases jsonLib content <;> simp
          · simp only [if_neg hjson]
            simp
      · simp only [if_neg h200]
        simp
  refine ⟨⟨?_, ?_⟩, hOk, ?_, ?_, ?_, ?_, ?_⟩
  · intro hnone
    simp only [fetch_data, hnone]
  · intro herr
    cases hl : lookupA sources source_key with
    | none => rfl
    | some src => exact absurd herr (hOk src hl _)
  · intro src e hsrc hn
    simp only [fetch_data, hsrc, hn]
  · intro src status content hsrc hn h200
    simp only [fetch_data, hsrc, hn]
    simp [h200]
  · intro src content e hsrc hfmt hn hcsv
    simp +decide [fetch_data, hsrc, hn, hfmt, parse_csv, hcsv]
  · intro src content e hsrc hfmt hn hjson
    simp +decide [fetch_data, hsrc, hn, hfmt, hjson]
  · unfold fetch_all_sources
    rw [List.map_map]
    rfl

/-- C7 witness: the unknown-key direction at a concrete unregistered
key against the registry's three sources. -/
theorem C7_fetch_error_handling_witness :
    lookupA data_sources "nope" = none ∧
    fetch_data data_sources (fun _ => NetOutcome.exn "down") (fun _ => Except.ok [])
      (fun _ => Except.error "bad") "nope" "t" = Except.error ("Source inconnue: " ++ "nope") :=
  ⟨rfl,
   (C7_fetch_error_handling data_sources (fun _ => NetOutcome.exn "down") (fun _ => Except.ok [])
     (fun _ => Except.error "bad") "nope" "t").1.mp rfl⟩

/-- C8 counterexample: for the registered recipe `civic_engagement` and
a mapping where the primary source is absent but the secondary
`paris_budget` has data, `fuse_sources` raises a `KeyError` instead of
returning the empty `FusionResult` — `_validate_sources` never checks
that the primary is present. -/
theorem C8_counterexample_primary_missing_raises :
    fuse_sources onlySecondary "civic_engagement" "t" =
      Except.error "KeyError: paris_participation" := by
  rfl

/-- C8 (amended): `fuse_sources` fails fast with the unknown-recipe
`ValueError` for an unregistered recipe name, and returns the explicit
empty `FusionResult` when no configured source is present with
non-empty data; but when the primary source is absent or empty while
some secondary source has data, it raises a `KeyError` (shown by the
counterexample) rather than returning the empty result. -/
theorem C8_amended_fail_fast_and_empty (processed_data : List (String × Val))
    (fusion_type now : String) :
    (lookupA fusion_configs fusion_type = none →
      fuse_sources processed_data fusion_type now =
        Except.error ("Configuration fusion inconnue: " ++ fusion_type)) ∧
    (∀ config, lookupA fusion_configs fusion_type = some config →
      validate_sources processed_data config = [] →
      fuse_sources processed_data fusion_type now = Except.ok empty_fusion_result) := by
  constructor
  · intro hnone
    unfold fuse_sources
    rw [hnone]
  · intro config hcfg hval
    simp only [fuse_sources, hcfg, hval]
    simp

/-- C8 witness: the empty mapping yields the empty result for the
registered recipe, and an unregistered name fails fast. -/
theorem C8_amended_witness :
    fuse_sources [] "civic_engagement" "t" = Except.ok empty_fusion_result ∧
    fuse_sources [] "nope" "t" = Except.error ("Configuration fusion inconnue: " ++ "nope") :=
  ⟨(C8_amended_fail_fast_and_empty [] "civic_engagement" "t").2 _ rfl rfl,
   (C8_amended_fail_fast_and_empty [] "nope" "t").1 rfl⟩

/-- C9 counterexample: documentation generation is not a pure function
of the processed-data mapping and fusion result alone — the
`generated_at` field is `datetime.now().isoformat()`, so two calls with
equal inputs but different clock readings return different bundles. -/
theorem C9_counterexample_timestamp_dependence :
    generate_comprehensive_documentation [] none "2024-01-01T00:00:00" ≠
      generate_comprehensive_documentation [] none "2024-01-01T00:00:01" := by
  intro h
  have h2 : dictGet (dictGetD (generate_comprehensive_documentation [] none "2024-01-01T00:00:00")
      "generation_metadata" .vnull) "generated_at" =
      dictGet (dictGetD (generate_comprehensive_documentation [] none "2024-01-01T00:00:01")
      "generation_metadata" .vnull) "generated_at" := by rw [h]
  rw [show dictGet (dictGetD (generate_comprehensive_documentation [] none "2024-01-01T00:00:00")
      "generation_metadata" .vnull) "generated_at" = some (.vstr "2024-01-01T00:00:00") from rfl] at h2
  rw [show dictGet (dictGetD (generate_comprehensive_documentation [] none "2024-01-01T00:00:01")
      "generation_metadata" .vnull) "generated_at" = some (.vstr "2024-01-01T00:00:01") from rfl] at h2
  injection h2 with h3
  injection h3 with h4
  exact absurd h4 (by decide)

/-- C9 (amended): given equal inputs and an equal clock reading, the
two bundles are equal — the generator is a pure function of
`(processed_data, fusion_result, now)`, with no other state, and its
inputs are immutable values in this embedding (nothing is mutated). -/
theorem C9_amended_deterministic_given_timestamp (pd1 pd2 : List (String × Val))
    (fr1 fr2 : Option FusionResult) (now1 now2 : String)
    (hpd : pd1 = pd2) (hfr : fr1 = fr2) (hnow : now1 = now2) :
    generate_comprehensive_documentation pd1 fr1 now1 =
      generate_comprehensive_documentation pd2 fr2 now2 := by
  rw [hpd, hfr, hnow]

/-- C1 counterexample: for the registered `urban_overview` recipe and a
single-record budget source (sector `Logement`), the sector-to-district
expansion inside `_normalize_budget_data` turns the 1 primary record
into 5 fused records, so `records_merged = 5` strictly exceeds the sum
(1) of the record counts of the sources used in that fusion. -/
theorem C1_counterexample_urban_overview :
    (fuse_sources oneBudgetRow "urban_overview" "t").map FusionResult.records_merged =
      Except.ok 5 ∧
    (lookupA fusion_configs "urban_overview").map (used_sources_record_sum oneBudgetRow) =
      some 1 ∧
    ¬ (5 ≤ 1) :=
  ⟨rfl, rfl, by decide⟩

/-- C1 (amended): the invariant does hold for the `civic_engagement`
recipe, whose primary source is the participation dataset: its
normalization is record-for-record, geographic fusion emits at most one
output row per primary row, and the primary's record count is one
summand of `sum(len(source['data']))` over the sources used.  (For
`urban_overview` the budget primary's sector expansion breaks the
invariant — see the counterexample.) -/
theorem C1_civic_records_merged_le_sum (processed_data : List (String × Val)) (now : String)
    (n : Nat)
    (h : (fuse_sources processed_data "civic_engagement" now).map FusionResult.records_merged =
      Except.ok n) :
    n ≤ used_sources_record_sum processed_data civic_config := by
  have hcfg : lookupA fusion_configs "civic_engagement" = some civic_config := rfl
  simp only [fuse_sources, hcfg,
    show civic_config.strategy = FusionStrategy.geographic from rfl] at h
  cases hv : (validate_sources processed_data civic_config).isEmpty with
  | true =>
    rw [hv, if_pos rfl] at h
    have h2 : (Except.ok 0 : Except String Nat) = Except.ok n := h
    injection h2 with h3
    rw [← h3]
    exact Nat.zero_le _
  | false =>
    rw [hv, if_neg Bool.false_ne_true] at h
    cases hfe : fuse_geographic
        (prepare_data_for_fusion (validate_sources processed_data civic_config))
        civic_config now with
    | error e =>
      rw [hfe] at h
      have h2 : (Except.error e : Except String Nat) = Except.ok n := h
      exact Except.noConfusion h2
    | ok fused =>
      rw [hfe] at h
      have h2 : (Except.ok fused.length : Except String Nat) = Except.ok n := h
      injection h2 with h3
      rw [← h3]
      cases hp : lookupA (prepare_data_for_fusion (validate_sources processed_data civic_config))
          civic_config.primary_source with
      | none =>
        rw [fuse_geographic, hp] at hfe
        have h4 : (Except.error ("KeyError: " ++ civic_config.primary_source) :
            Except String (List Rec)) = Except.ok fused := hfe
        exact Except.noConfusion h4
      | some pdf =>
        have hlen : fused.length ≤ pdf.length :=
          fuse_geographic_length_le _ civic_config now pdf fused hp hfe
        rw [prepare_data_for_fusion] at hp
        obtain ⟨sd, hsd, hF⟩ := lookupA_filterMap_mem _ _ _ _ hp
        cases hdata : sourceDataList sd.2 with
        | none =>
          rw [hdata] at hF
          have h5 : (none : Option (String × List Rec)) =
              some (civic_config.primary_source, pdf) := hF
          exact Option.noConfusion h5
        | some xs =>
          rw [hdata] at hF
          simp only [] at hF
          split_ifs at hF with h1 h2 h3
          · cases hnorm : normalize_participation_data (dfOfData xs) with
            | error e2 =>
              rw [hnorm] at hF
              have h5 : (none : Option (String × List Rec)) =
                  some (civic_config.primary_source, pdf) := hF
              exact Option.noConfusion h5
            | ok ndf =>
              rw [hnorm] at hF
              have h5 : some (sd.1, ndf.map (fun r =>
                  setK (setK r "_source" (.vstr sd.1))
                    "_source_quality" (.vnum (sourceQualityScore sd.2)))) =
                  some (civic_config.primary_source, pdf) := hF
              injection h5 with h6
              injection h6 with hk hvv
              have l1 : pdf.length = xs.length := by
                rw [← hvv, List.length_map,
                  normalize_participation_length (dfOfData xs) ndf hnorm, dfOfData,
                  List.length_map]
              have hsum : xs.length ≤ used_sources_record_sum processed_data civic_config := by
                have hmm : ((sourceDataList sd.2).getD []).length ∈
                    (validate_sources processed_data civic_config).map
                      (fun sv => ((sourceDataList sv.2).getD []).length) :=
                  List.mem_map_of_mem _ hsd
                rw [hdata, Option.getD_some] at hmm
                exact List.single_le_sum (fun x _ => Nat.zero_le x) _ hmm
              exact le_trans hlen (le_trans (le_of_eq l1) hsum)
          · cases hnorm : normalize_budget_data (dfOfData xs) with
            | error e2 =>
              rw [hnorm] at hF
              have h5 : (none : Option (String × List Rec)) =
                  some (civic_config.primary_source, pdf) := hF
              exact Option.noConfusion h5
            | ok ndf =>
              rw [hnorm] at hF
              have h5 : some (sd.1, ndf.map (fun r =>
                  setK (setK r "_source" (.vstr sd.1))
                    "_source_quality" (.vnum (sourceQualityScore sd.2)))) =
                  some (civic_config.primary_source, pdf) := hF
              injection h5 with h6
              injection h6 with hk hvv
              exact absurd hk h1
          · have h5 : some (sd.1, (normalize_transport_data (dfOfData xs)).map (fun r =>
                setK (setK r "_source" (.vstr sd.1))
                  "_source_quality" (.vnum (sourceQualityScore sd.2)))) =
                some (civic_config.primary_source, pdf) := hF
            injection h5 with h6
            injection h6 with hk hvv
            exact absurd hk h1
          · have h5 : some (sd.1, (dfOfData xs).map (fun r =>
                setK (setK r "_source" (.vstr sd.1))
                  "_source_quality" (.vnum (sourceQualityScore sd.2)))) =
                some (civic_config.primary_source, pdf) := hF
            injection h5 with h6
            injection h6 with hk hvv
            exact absurd hk h1

/-- C1 witness: the amended bound at a concrete one-record
participation mapping, where the fusion merges exactly 1 record. -/
theorem C1_civic_records_merged_le_sum_witness :
    1 ≤ used_sources_record_sum oneParticipationRow civic_config :=
  C1_civic_records_merged_le_sum oneParticipationRow "t" 1 rfl

/-- C4: left-outer-join property of `_fuse_geographic` — when the
primary frame is non-empty, every primary row has a parseable
`arrondissement_code`, and no secondary row carries any primary row's
code, the fusion succeeds and its output is (a permutation of, grouping
by unique code) exactly one record per primary record, each being that
primary record plus only the three fusion-metadata fields
(`_fusion_type`, `_fusion_key`, `_fused_at`) — no secondary-prefixed
fields, no dropped primary rows. -/
theorem C4_geographic_left_outer_join (prepared : List (String × List Rec))
    (config : FusionConfig) (now : String) (primary_df : List Rec)
    (hp : lookupA prepared config.primary_source = some primary_df)
    (hne : primary_df ≠ [])
    (hall : ∀ r ∈ primary_df, (getCode r).isSome = true)
    (hnom : ∀ s ∈ config.secondary_sources, ∀ sdf, lookupA prepared s = some sdf →
      ∀ sr ∈ sdf, ∀ r ∈ primary_df, ∀ c : ℚ, getCode r = some c → ¬ getCode sr = some c) :
    (∀ e, fuse_geographic prepared config now ≠ Except.error e) ∧
    (∀ out, fuse_geographic prepared config now = Except.ok out →
      out.Perm (primary_df.map (stamp_fusion_meta now)) ∧
      out.length = primary_df.length) := by
  have hcol : colInDf primary_df "arrondissement_code" = true := by
    obtain ⟨r0, hr0⟩ := List.exists_mem_of_ne_nil primary_df hne
    unfold colInDf
    rw [List.any_eq_true]
    exact ⟨r0, hr0, getCode_isSome_hasKey r0 (hall r0 hr0)⟩
  have heq : fuse_geographic prepared config now =
      Except.ok ((uniquesFirst (primary_df.map getCode)).flatMap
        (groupRows getCode (fuse_row prepared config now) primary_df)) := by
    rw [fuse_geographic, hp]
    simp only [hcol, Bool.not_true, Bool.false_eq_true, if_false]
  have hg : ∀ a ∈ primary_df, ∀ k : ℚ, getCode a = some k →
      fuse_row prepared config now k a = stamp_fusion_meta now a := by
    intro a ha k hk
    have hm : merge_secondary_fields prepared config k a = a :=
      merge_secondary_id prepared config k a (fun s hs sdf hsdf =>
        List.filter_eq_nil_iff.mpr (fun sr hsr => by
          simpa using hnom s hs sdf hsdf sr hsr a ha k hk))
    simp only [stamp_fusion_meta, hk]
    rw [fuse_row, hm]
  have hperm0 := groups_flatMap_perm getCode (fuse_row prepared config now)
    (stamp_fusion_meta now) primary_df.length primary_df (le_refl _) hg
  rw [List.filter_eq_self.mpr hall] at hperm0
  refine ⟨?_, ?_⟩
  · intro e hcon
    rw [heq] at hcon
    exact Except.noConfusion hcon
  · intro out hout
    rw [heq] at hout
    injection hout with h2
    constructor
    · exact h2 ▸ hperm0
    · rw [← h2, hperm0.length_eq, List.length_map]

/-- C4 witness: the left-outer-join conclusion at a concrete two-row
primary frame (codes 1 and 2) with one non-matching secondary record
(code 3): the fusion does not raise, and its output is exactly the two
stamped primary rows. -/
theorem C4_geographic_left_outer_join_witness :
    fuse_geographic c4_prepared civic_config "t" ≠
      Except.error "KeyError: arrondissement_code" ∧
    ((c4_primary.map (stamp_fusion_meta "t")).Perm (c4_primary.map (stamp_fusion_meta "t")) ∧
      (c4_primary.map (stamp_fusion_meta "t")).length = c4_primary.length) := by
  have hnom : ∀ s ∈ civic_config.secondary_sources, ∀ sdf, lookupA c4_prepared s = some sdf →
      ∀ sr ∈ sdf, ∀ r ∈ c4_primary, ∀ c : ℚ, getCode r = some c → ¬ getCode sr = some c := by
    intro s hs sdf hsdf sr hsr r hr c hc hcon
    have hs2 : s = "paris_budget" := by simpa [civic_config] using hs
    subst hs2
    rw [show lookupA c4_prepared "paris_budget" =
      some [[("arrondissement_code", Val.vnum 3), ("amount", Val.vnum 5)]] from rfl] at hsdf
    injection hsdf with hsdf2
    subst hsdf2
    have hsr2 : sr = [("arrondissement_code", Val.vnum 3), ("amount", Val.vnum 5)] := by
      simpa using hsr
    subst hsr2
    rw [show getCode [("arrondissement_code", Val.vnum 3), ("amount", Val.vnum 5)] =
      some (3 : ℚ) from rfl] at hcon
    injection hcon with hc3
    have hr2 : r = [("arrondissement_code", Val.vnum 1), ("participants", Val.vnum 10)] ∨
        r = [("arrondissement_code", Val.vnum 2), ("participants", Val.vnum 20)] := by
      simpa [c4_primary] using hr
    cases hr2 with
    | inl hcase =>
      rw [hcase, show getCode [("arrondissement_code", Val.vnum 1),
        ("participants", Val.vnum 10)] = some (1 : ℚ) from rfl] at hc
      injection hc with hc1
      exact absurd (hc1.trans hc3.symm) (by norm_num)
    | inr hcase =>
      rw [hcase, show getCode [("arrondissement_code", Val.vnum 2),
        ("participants", Val.vnum 20)] = some (2 : ℚ) from rfl] at hc
      injection hc with hc1
      exact absurd (hc1.trans hc3.symm) (by norm_num)
  have hthm := C4_geographic_left_outer_join c4_prepared civic_config "t" c4_primary rfl
    (by simp [c4_primary]) (by decide) hnom
  exact ⟨hthm.1 "KeyError: arrondissement_code",
    hthm.2 (c4_primary.map (stamp_fusion_meta "t")) rfl⟩

/-- C9 witness: the amended determinism at a concrete one-source
mapping. -/
theorem C9_amended_witness :
    (onlySecondary = onlySecondary) ∧ ((none : Option FusionResult) = none) ∧ ("t" = "t") ∧
    generate_comprehensive_documentation onlySecondary none "t" =
      generate_comprehensive_documentation onlySecondary none "t" :=
  ⟨rfl, rfl, rfl,
   C9_amended_deterministic_given_timestamp onlySecondary onlySecondary none none "t" "t"
     rfl rfl rfl⟩

end AgoraFlux
